import Mathlib

/-!
Verification development for the flight-trajectory planner
(`trajectory_calculator.py`, `aircraft.py`, `environment.py`).

Coordinates are kilometres, speeds km/h, angles degrees unless noted.
Python/numpy float arithmetic is modelled over `ℝ`; numpy arrays of points
become `List Vec3`; the collision scan that the source reports as a boolean
plus diagnostic indices is modelled by its boolean essence as a `Prop`;
Python exceptions are modelled with `Except PyErr`.
-/

open Real

noncomputable section
open scoped Classical

/-- A 2-component numpy vector `[x, y]`. -/
@[ext] structure Vec2 where
  x : ℝ
  y : ℝ

/-- A 3-component numpy vector `[x, y, z]`. -/
@[ext] structure Vec3 where
  x : ℝ
  y : ℝ
  z : ℝ

instance : Add Vec2 := ⟨fun a b => ⟨a.x + b.x, a.y + b.y⟩⟩

instance : Sub Vec2 := ⟨fun a b => ⟨a.x - b.x, a.y - b.y⟩⟩

instance : SMul ℝ Vec2 := ⟨fun c v => ⟨c * v.x, c * v.y⟩⟩

instance : Add Vec3 := ⟨fun a b => ⟨a.x + b.x, a.y + b.y, a.z + b.z⟩⟩

instance : Sub Vec3 := ⟨fun a b => ⟨a.x - b.x, a.y - b.y, a.z - b.z⟩⟩

instance : SMul ℝ Vec3 := ⟨fun c v => ⟨c * v.x, c * v.y, c * v.z⟩⟩

instance : Inhabited Vec2 := ⟨⟨0, 0⟩⟩

instance : Inhabited Vec3 := ⟨⟨0, 0, 0⟩⟩

/-- numpy dot product of two 2-vectors. -/
def Vec2.dot (a b : Vec2) : ℝ := a.x * b.x + a.y * b.y

/-- `np.linalg.norm` of a 2-vector. -/
def Vec2.norm (v : Vec2) : ℝ := Real.sqrt (v.x ^ 2 + v.y ^ 2)

/-- `np.linalg.norm` of a 3-vector. -/
def Vec3.norm (v : Vec3) : ℝ := Real.sqrt (v.x ^ 2 + v.y ^ 2 + v.z ^ 2)

/-- numpy slice `p[:2]`. -/
def Vec3.xy (v : Vec3) : Vec2 := ⟨v.x, v.y⟩

/-- Rebuild a 3-vector from a 2D position and an altitude. -/
def Vec2.withZ (v : Vec2) (z : ℝ) : Vec3 := ⟨v.x, v.y, z⟩

/-- `np.radians`. -/
def radians (d : ℝ) : ℝ := d * π / 180

/-- `np.degrees`. -/
def degrees (r : ℝ) : ℝ := r * 180 / π

/-- Python `int()`: truncation toward zero. -/
def py_int (x : ℝ) : ℤ := if 0 ≤ x then ⌊x⌋ else -⌊-x⌋

/-- `np.clip(x, lo, hi)`. -/
def np_clip (x lo hi : ℝ) : ℝ := min (max x lo) hi

/-- `np.arctan2 y x` (range `(-π, π]`, with the numpy conventions on the axes). -/
def arctan2 (y x : ℝ) : ℝ :=
  if 0 < x then Real.arctan (y / x)
  else if x < 0 then (if 0 ≤ y then Real.arctan (y / x) + π else Real.arctan (y / x) - π)
  else if 0 < y then π / 2 else if y < 0 then -(π / 2) else 0

/-- One entry of `AircraftType.SPECIFICATIONS` (`aircraft.py`). -/
structure AircraftSpecs where
  name : String
  max_climb_slope : ℝ
  max_descent_slope : ℝ
  typical_speed : ℝ
  approach_speed : ℝ
  faf_speed : ℝ
  min_speed : ℝ
  max_speed : ℝ
  max_bank_angle : ℝ

/-- `SPECIFICATIONS["light"]`. -/
def light_specs : AircraftSpecs :=
  ⟨"Avion Leger", 15, -10, 180, 120, 140, 100, 220, 30⟩

/-- `SPECIFICATIONS["commercial"]`. -/
def commercial_specs : AircraftSpecs :=
  ⟨"Avion de Ligne", 10, -6, 250, 180, 200, 160, 300, 25⟩

/-- `SPECIFICATIONS["cargo"]`. -/
def cargo_specs : AircraftSpecs :=
  ⟨"Avion Cargo", 8, -5, 220, 160, 180, 140, 280, 20⟩

/-- `AircraftType.get_specifications`: dict `.get` with the `"commercial"` entry as the
default for any unknown key. -/
def get_specifications (aircraft_type : String) : AircraftSpecs :=
  if aircraft_type = "light" then light_specs
  else if aircraft_type = "commercial" then commercial_specs
  else if aircraft_type = "cargo" then cargo_specs
  else commercial_specs

/-- The `Aircraft` state set by `Aircraft.__init__` (the spec fields copied at
construction time are recovered through `Aircraft.specs`, a pure lookup). -/
structure Aircraft where
  position : Vec3
  speed : ℝ
  heading : ℝ
  aircraft_type : String

/-- `self.specs` as set in `Aircraft.__init__`. -/
def Aircraft.specs (a : Aircraft) : AircraftSpecs := get_specifications a.aircraft_type

/-- `self.max_climb_slope`. -/
def Aircraft.max_climb_slope (a : Aircraft) : ℝ := a.specs.max_climb_slope

/-- `self.max_descent_slope`. -/
def Aircraft.max_descent_slope (a : Aircraft) : ℝ := a.specs.max_descent_slope

/-- `self.max_bank_angle`. -/
def Aircraft.max_bank_angle (a : Aircraft) : ℝ := a.specs.max_bank_angle

/-- `Aircraft.calculate_min_turn_radius` with the default argument
(`speed = self.speed`): `((v/3.6)^2 / (g·tan(bank))) / 1000` km. -/
def Aircraft.calculate_min_turn_radius (a : Aircraft) : ℝ :=
  ((a.speed / 3.6) ^ 2 / (9.81 * Real.tan (radians a.max_bank_angle))) / 1000

/-- `Aircraft.get_approach_speed` (the key is present in all three spec tables, so the
`.get` default is never taken). -/
def Aircraft.get_approach_speed (a : Aircraft) : ℝ := a.specs.approach_speed

/-- The two navigation points of `Environment` read by the trajectory calculator. -/
structure Environment where
  airport_position : Vec3
  faf_position : Vec3

/-- An obstacle dict `{'x': …, 'y': …, 'radius': …, 'height': …}` as built by the
application (`main.py` `_add_cylinder` and `DEFAULT_CONFIG`). -/
structure Cylinder where
  x : ℝ
  y : ℝ
  radius : ℝ
  height : ℝ

/-- Python exceptions that the embedded code can raise. -/
inductive PyErr where
  | keyError
deriving DecidableEq

/-- `_check_collision_with_cylinder`: inside the radius horizontally and between the
ground and the obstacle top. -/
def check_collision_with_cylinder (p : Vec3) (c : Cylinder) : Prop :=
  Real.sqrt ((p.x - c.x) ^ 2 + (p.y - c.y) ^ 2) ≤ c.radius ∧ 0 ≤ p.z ∧ p.z ≤ c.height

/-- Boolean essence of `_check_trajectory_collision` (the source also reports which
cylinders collide and the first colliding index; only the boolean drives control flow). -/
def has_trajectory_collision (traj : List Vec3) (cyls : List Cylinder) : Prop :=
  ∃ p ∈ traj, ∃ c ∈ cyls, check_collision_with_cylinder p c

/-- `_calculate_avoidance_waypoints` (first-attempt version, fixed `safety_margin = 0.5`). -/
def calculate_avoidance_waypoints (start_2d end_2d : Vec2) (cylinders : List Cylinder)
    (altitude : ℝ) : List Vec2 :=
  let safety_margin : ℝ := 0.5
  let traj_vec := end_2d - start_2d
  let traj_dist := traj_vec.norm
  if traj_dist < 0.01 then [] else
  let traj_dir := (1 / traj_dist) • traj_vec
  cylinders.flatMap (fun cylinder =>
    if altitude > cylinder.height + 0.5 then [] else
    let cyl_center : Vec2 := ⟨cylinder.x, cylinder.y⟩
    let cyl_radius := cylinder.radius + safety_margin
    let to_cyl := cyl_center - start_2d
    let proj_length := to_cyl.dot traj_dir
    if proj_length < 0 ∨ proj_length > traj_dist then [] else
    let closest_point := start_2d + proj_length • traj_dir
    let dist_to_segment := (cyl_center - closest_point).norm
    if dist_to_segment < cyl_radius then
      let perp : Vec2 := ⟨-traj_dir.y, traj_dir.x⟩
      let cross_product := to_cyl.x * traj_dir.y - to_cyl.y * traj_dir.x
      let side : ℝ := if cross_product > 0 then 1 else -1
      let approach_distance := max (cyl_radius * 0.8) 1.0
      let entry_pos_on_traj := max 0 (proj_length - approach_distance)
      let exit_pos_on_traj := min traj_dist (proj_length + approach_distance)
      let entry_base := start_2d + entry_pos_on_traj • traj_dir
      let exit_base := start_2d + exit_pos_on_traj • traj_dir
      let offset_distance := (cylinder.radius - dist_to_segment) + safety_margin
      let entry_point := entry_base + (side * offset_distance) • perp
      let exit_point := exit_base + (side * offset_distance) • perp
      let dist_entry := (entry_point - cyl_center).norm
      let dist_exit := (exit_point - cyl_center).norm
      let min_safe_distance := cylinder.radius + safety_margin
      let entry_final := if dist_entry < min_safe_distance then
          cyl_center + (min_safe_distance / dist_entry) • (entry_point - cyl_center)
        else entry_point
      let exit_final := if dist_exit < min_safe_distance then
          cyl_center + (min_safe_distance / dist_exit) • (exit_point - cyl_center)
        else exit_point
      [entry_final, exit_final]
    else [])

/-- `_calculate_avoidance_waypoints_with_margin` (retry version, caller-chosen
`safety_factor`; note the different `approach_distance` floor). -/
def calculate_avoidance_waypoints_with_margin (start_2d end_2d : Vec2)
    (cylinders : List Cylinder) (altitude safety_factor : ℝ) : List Vec2 :=
  let traj_vec := end_2d - start_2d
  let traj_dist := traj_vec.norm
  if traj_dist < 0.01 then [] else
  let traj_dir := (1 / traj_dist) • traj_vec
  cylinders.flatMap (fun cylinder =>
    if altitude > cylinder.height + 0.5 then [] else
    let cyl_center : Vec2 := ⟨cylinder.x, cylinder.y⟩
    let cyl_radius := cylinder.radius + safety_factor
    let to_cyl := cyl_center - start_2d
    let proj_length := to_cyl.dot traj_dir
    if proj_length < 0 ∨ proj_length > traj_dist then [] else
    let closest_point := start_2d + proj_length • traj_dir
    let dist_to_segment := (cyl_center - closest_point).norm
    if dist_to_segment < cyl_radius then
      let perp : Vec2 := ⟨-traj_dir.y, traj_dir.x⟩
      let cross_product := to_cyl.x * traj_dir.y - to_cyl.y * traj_dir.x
      let side : ℝ := if cross_product > 0 then 1 else -1
      let approach_distance := max (cyl_radius * 0.8) (safety_factor * 0.5)
      let entry_pos_on_traj := max 0 (proj_length - approach_distance)
      let exit_pos_on_traj := min traj_dist (proj_length + approach_distance)
      let entry_base := start_2d + entry_pos_on_traj • traj_dir
      let exit_base := start_2d + exit_pos_on_traj • traj_dir
      let offset_distance := (cylinder.radius - dist_to_segment) + safety_factor
      let entry_point := entry_base + (side * offset_distance) • perp
      let exit_point := exit_base + (side * offset_distance) • perp
      let dist_entry := (entry_point - cyl_center).norm
      let dist_exit := (exit_point - cyl_center).norm
      let min_safe_dist := cylinder.radius + safety_factor
      let entry_final := if dist_entry < min_safe_dist then
          cyl_center + (min_safe_dist / dist_entry) • (entry_point - cyl_center)
        else entry_point
      let exit_final := if dist_exit < min_safe_dist then
          cyl_center + (min_safe_dist / dist_exit) • (exit_point - cyl_center)
        else exit_point
      [entry_final, exit_final]
    else [])

/-- `_calculate_runway_intercept_point` (progressive-alignment mode; `current_dir` is
accepted but never read by the body, as in the source). -/
def calculate_runway_intercept_point (start_pos current_dir airport_pos faf_pos
    runway_dir : Vec2) (angle_to_runway : ℝ) : Vec2 :=
  let vec_to_aircraft := start_pos - airport_pos
  let projection_dist := vec_to_aircraft.dot runway_dir
  let closest_point := airport_pos + projection_dist • runway_dir
  let perp_distance := (start_pos - closest_point).norm
  let runway_length := (faf_pos - airport_pos).norm
  let alignment_distance := max (perp_distance * 2) (max (angle_to_runway * 0.1) 3.0)
  let safety_margin : ℝ := 0.5
  let target_projection := runway_length - safety_margin
  let target_chosen := if projection_dist < runway_length * 0.3 then
      min (projection_dist + alignment_distance) (runway_length * 0.95)
    else target_projection
  airport_pos + target_chosen • runway_dir

/-- Cumulative travelled distance `distances[i]` computed by the loops of
`_calculate_parameters` and `_calculate_parameters_with_speed_profile`. -/
def running_distance (traj : List Vec3) : ℕ → ℝ
  | 0 => 0
  | i + 1 => running_distance traj i +
      (traj.getD (i + 1) ⟨0, 0, 0⟩ - traj.getD i ⟨0, 0, 0⟩).norm

/-- `slope_array[i]` body (degrees, `±90` on a purely vertical step). -/
def slope_at (traj : List Vec3) (i : ℕ) : ℝ :=
  let p0 := traj.getD (i - 1) ⟨0, 0, 0⟩
  let p1 := traj.getD i ⟨0, 0, 0⟩
  let dz := p1.z - p0.z
  let dx := (p1.xy - p0.xy).norm
  if dx > 0 then degrees (Real.arctan (dz / dx))
  else if dz ≠ 0 then (if dz > 0 then 90.0 else -90.0)
  else 0

/-- `heading_array[i]` body (degrees from North, normalised to `[0, 360)`). -/
def heading_at (traj : List Vec3) (i : ℕ) : ℝ :=
  let p0 := traj.getD (i - 1) ⟨0, 0, 0⟩
  let p1 := traj.getD i ⟨0, 0, 0⟩
  let dx := p1.x - p0.x
  let dy := p1.y - p0.y
  if dx ≠ 0 ∨ dy ≠ 0 then
    let h := degrees (arctan2 dx dy)
    if h < 0 then h + 360 else h
  else 0

/-- `heading_array` with the index-0 fixup `heading_array[0] = heading_array[1]`. -/
def heading_fixed (traj : List Vec3) (i : ℕ) : ℝ :=
  if i = 0 then (if 1 < traj.length then heading_at traj 1 else 0) else heading_at traj i

/-- `turn_rate_array[i]` body, over given time and (fixed-up) heading series. -/
def turn_rate_at (time_f heading_f : ℕ → ℝ) (i : ℕ) : ℝ :=
  if time_f i - time_f (i - 1) > 0 then
    let delta_heading := heading_f i - heading_f (i - 1)
    let corrected := if delta_heading > 180 then delta_heading - 360
      else if delta_heading < -180 then delta_heading + 360 else delta_heading
    corrected / (time_f i - time_f (i - 1))
  else 0

/-- `time_array[i]` of `_calculate_parameters`:
`np.linspace(0, flight_time_hours*3600, n)` when the total distance is positive. -/
def linspace_time (traj : List Vec3) (speed : ℝ) (i : ℕ) : ℝ :=
  let n := traj.length
  let total_distance := running_distance traj (n - 1)
  if total_distance > 0 then
    (i : ℝ) * ((total_distance / speed) * 3600) / ((n : ℝ) - 1)
  else 0

/-- The dict of per-sample series returned by the parameter derivations (the extra
bookkeeping keys such as `n_points` or `intercept_point` are not modelled). -/
structure FlightParams where
  time : List ℝ
  altitude : List ℝ
  slope : List ℝ
  speed : List ℝ
  heading : List ℝ
  turn_rate : List ℝ
  distance : ℝ
  flight_time : ℝ

/-- `_calculate_parameters` (constant speed; time is a `linspace`). -/
def calculate_parameters (traj : List Vec3) (speed : ℝ) : FlightParams :=
  let n := traj.length
  let total_distance := running_distance traj (n - 1)
  let time_f : ℕ → ℝ := linspace_time traj speed
  let heading_f : ℕ → ℝ := heading_fixed traj
  let slope_f : ℕ → ℝ := fun i =>
    if i = 0 then (if 1 < n then slope_at traj 1 else 0) else slope_at traj i
  let tr : ℕ → ℝ := turn_rate_at time_f heading_f
  { time := (List.range n).map time_f
    altitude := traj.map Vec3.z
    slope := (List.range n).map slope_f
    speed := List.replicate n speed
    heading := (List.range n).map heading_f
    turn_rate := (List.range n).map (fun i =>
      if i = 0 then (if 1 < n then tr 1 else 0) else tr i)
    distance := total_distance
    flight_time := if total_distance > 0 then total_distance / speed else 0 }

/-- The full per-sample speed series of `_calculate_parameters_with_speed_profile`:
constant through the arc, then the supplied approach profile. -/
def full_speed_profile (arc_length : ℕ) (initial_speed : ℝ) (speed_profile : List ℝ)
    (i : ℕ) : ℝ :=
  if i < arc_length then initial_speed else speed_profile.getD (i - arc_length) 0

/-- `time_array[i]` of `_calculate_parameters_with_speed_profile`: each step adds
`Δdistance / avg_speed` (hours, converted to seconds); a non-positive average leaves
the initialised 0 in place, as in the source. -/
def profile_time (traj : List Vec3) (sp : ℕ → ℝ) : ℕ → ℝ
  | 0 => 0
  | i + 1 =>
    let segment_distance := (traj.getD (i + 1) ⟨0, 0, 0⟩ - traj.getD i ⟨0, 0, 0⟩).norm
    let avg_speed := (sp (i + 1) + sp i) / 2
    if avg_speed > 0 then profile_time traj sp i + (segment_distance / avg_speed) * 3600
    else 0

/-- `_calculate_parameters_with_speed_profile`. -/
def calculate_parameters_with_speed_profile (traj : List Vec3) (initial_speed : ℝ)
    (arc_length : ℕ) (speed_profile : List ℝ) : FlightParams :=
  let n := traj.length
  let sp : ℕ → ℝ := full_speed_profile arc_length initial_speed speed_profile
  let time_f : ℕ → ℝ := profile_time traj sp
  let heading_f : ℕ → ℝ := heading_fixed traj
  let slope_f : ℕ → ℝ := fun i =>
    if i = 0 then (if 1 < n then slope_at traj 1 else 0) else slope_at traj i
  let tr : ℕ → ℝ := turn_rate_at time_f heading_f
  { time := (List.range n).map time_f
    altitude := traj.map Vec3.z
    slope := (List.range n).map slope_f
    speed := (List.range n).map sp
    heading := (List.range n).map heading_f
    turn_rate := (List.range n).map (fun i =>
      if i = 0 then (if 1 < n then tr 1 else 0) else tr i)
    distance := running_distance traj (n - 1)
    flight_time := if time_f (n - 1) > 0 then time_f (n - 1) / 3600 else 0 }

/-- `_calculate_simple_trajectory`: straight line, `max(500, 100/km)` samples. -/
def calculate_simple_trajectory (aircraft : Aircraft) (start_pos target_pos : Vec3) :
    List Vec3 × FlightParams :=
  let distance := (target_pos - start_pos).norm
  let n_points := max 500 (py_int (distance * 100)).toNat
  let traj := (List.range n_points).map (fun (i : ℕ) =>
    start_pos + ((i : ℝ) / ((n_points : ℝ) - 1)) • (target_pos - start_pos))
  (traj, calculate_parameters traj aircraft.speed)

/-- `_vertical_trajectory`: cubic smoothstep descent at a fixed 10 km/h. -/
def vertical_trajectory (aircraft : Aircraft) (start_pos target_pos : Vec3) :
    List Vec3 × FlightParams :=
  let altitude_diff := |target_pos.z - start_pos.z|
  let vertical_speed : ℝ := 10.0
  let n_points := max 300 (py_int (altitude_diff * 200)).toNat
  let traj := (List.range n_points).map (fun (i : ℕ) =>
    let t := (i : ℝ) / ((n_points : ℝ) - 1)
    let smooth_t := t * t * (3.0 - 2.0 * t)
    start_pos + smooth_t • (target_pos - start_pos))
  (traj, calculate_parameters traj vertical_speed)

/-- Segment 1 of `_build_trajectory_with_runway_alignment`: level flight along the
current heading. -/
def initial_segment_list (start_pos : Vec3) (current_dir : Vec2)
    (initial_flight_dist : ℝ) : List Vec3 :=
  let n_initial := max 50 (py_int (initial_flight_dist * 100)).toNat
  (List.range n_initial).map (fun (i : ℕ) =>
    let t := (i : ℝ) / ((n_initial : ℝ) - 1)
    (start_pos.xy + (t * initial_flight_dist) • current_dir).withZ start_pos.z)

/-- The three-phase altitude law used inside the Bezier sampling loops of
`_build_trajectory_with_runway_alignment` (level / 7th-degree smoothstep transition /
linear descent floored at the FAF altitude). `drop_rate = |tan(max_descent_slope)|`. -/
def build_altitude (altitude_start altitude_end level_flight_distance
    transition_distance drop_rate current_distance : ℝ) : ℝ :=
  if current_distance < level_flight_distance then altitude_start
  else if current_distance < level_flight_distance + transition_distance then
    let t := (current_distance - level_flight_distance) / transition_distance
    let smooth_t := -20 * t ^ 7 + 70 * t ^ 6 - 84 * t ^ 5 + 35 * t ^ 4
    altitude_start - smooth_t * (transition_distance * drop_rate)
  else
    let descent_progress := current_distance - level_flight_distance - transition_distance
    max (altitude_start - transition_distance * drop_rate - descent_progress * drop_rate)
      altitude_end

/-- Cubic Bezier position. -/
def bezier_point (P0 P1 P2 P3 : Vec2) (t : ℝ) : Vec2 :=
  ((1 - t) ^ 3) • P0 + (3 * (1 - t) ^ 2 * t) • P1 + (3 * (1 - t) * t ^ 2) • P2 +
    (t ^ 3) • P3

/-- The Bezier waypoint-chain sampler of `_build_trajectory_with_runway_alignment`
(the identical code block appears twice in the source, for the first attempt and for
each retry; both are this function applied to the respective waypoint list). -/
def bezier_chain (waypoints : List Vec2) (current_dir runway_dir : Vec2)
    (altitude_start altitude_end level_flight_distance transition_distance
    drop_rate : ℝ) : List Vec3 :=
  (List.range (waypoints.length - 1)).flatMap (fun wp_idx =>
    let wp_start := waypoints.getD wp_idx ⟨0, 0⟩
    let wp_end := waypoints.getD (wp_idx + 1) ⟨0, 0⟩
    let segment_distance := (wp_end - wp_start).norm
    let n_segment := max 100 (py_int (segment_distance * 150)).toNat
    let seg_dir := if segment_distance > 0.01 then (1 / segment_distance) • (wp_end - wp_start)
      else (⟨1, 0⟩ : Vec2)
    let P0 := wp_start
    let P3 := wp_end
    let P1 := if wp_idx = 0 then P0 + (segment_distance * 0.35) • current_dir
      else
        let prev_vec := wp_start - waypoints.getD (wp_idx - 1) ⟨0, 0⟩
        let prev_dir := if prev_vec.norm > 0.01 then (1 / prev_vec.norm) • prev_vec
          else seg_dir
        P0 + (segment_distance * 0.35) • prev_dir
    let P2 := if wp_idx = waypoints.length - 2 then P3 - (segment_distance * 0.35) • runway_dir
      else
        let next_vec := waypoints.getD (wp_idx + 2) ⟨0, 0⟩ - wp_end
        let next_dir := if next_vec.norm > 0.01 then (1 / next_vec.norm) • next_vec
          else seg_dir
        P3 - (segment_distance * 0.35) • next_dir
    let dist_so_far := ((List.range wp_idx).map (fun i =>
      (waypoints.getD (i + 1) ⟨0, 0⟩ - waypoints.getD i ⟨0, 0⟩).norm)).sum
    (List.range n_segment).map (fun (i : ℕ) =>
      let t_local := (i : ℝ) / ((n_segment : ℝ) - 1)
      let pos_2d := bezier_point P0 P1 P2 P3 t_local
      let current_distance := dist_so_far + t_local * segment_distance
      pos_2d.withZ (build_altitude altitude_start altitude_end level_flight_distance
        transition_distance drop_rate current_distance)))

/-- The final-approach blending loop (last `min(100, n//20)` samples pulled linearly
toward the FAF) applied before the collision validation of the first attempt. -/
def smooth_final (traj : List Vec3) (faf_pos : Vec3) : List Vec3 :=
  let n := traj.length
  let n_smooth_final := min 100 (n / 20)
  (List.range n).map (fun idx =>
    let p := traj.getD idx ⟨0, 0, 0⟩
    if n - n_smooth_final ≤ idx then
      let i := idx - (n - n_smooth_final)
      let t := (i : ℝ) / ((n_smooth_final : ℝ) - 1)
      (1 - t) • p + t • faf_pos
    else p)

/-- `trajectory[-1] = faf_pos`. -/
def set_last_to (traj : List Vec3) (p : Vec3) : List Vec3 :=
  traj.set (traj.length - 1) p

/-- `_calculate_emergency_avoidance_trajectory`. For a non-empty obstacle list the
source immediately reads `cylinder['center']` (line 2741), a key absent from the
obstacle dicts built anywhere in the application (they carry `x`, `y`, `radius`,
`height`), so the call raises `KeyError`. With an empty list the waypoint loop never
runs, a single start→FAF segment is built and the (vacuously passing) collision check
lets it be returned. -/
def calculate_emergency_avoidance_trajectory (start_pos faf_pos : Vec3)
    (cylinders : List Cylinder) : Except PyErr (Option (List Vec3)) :=
  match cylinders with
  | _ :: _ => .error .keyError
  | [] =>
    let wp_start := start_pos
    let wp_end := faf_pos
    let segment_distance := (wp_end - wp_start).norm
    let n_segment_points := max 200 (py_int (segment_distance * 150)).toNat
    let altitude_start := wp_start.z
    let altitude_end := wp_end.z
    let altitude_diff := altitude_end - altitude_start
    let segment := (List.range n_segment_points).map (fun (j : ℕ) =>
      let t := (j : ℝ) / ((n_segment_points : ℝ) - 1)
      let xy := wp_start.xy + t • (wp_end.xy - wp_start.xy)
      let z :=
        if altitude_diff < 0 then
          let max_descent_rate : ℝ := 0.1
          let actual_descent_rate := min (|altitude_diff| / segment_distance) max_descent_rate
          if t < 0.8 then
            altitude_start - (t / 0.8) * |altitude_diff| * actual_descent_rate / max_descent_rate
          else
            let final_t := (t - 0.8) / 0.2
            altitude_start - |altitude_diff| * actual_descent_rate / max_descent_rate +
              final_t * (altitude_end -
                (altitude_start - |altitude_diff| * actual_descent_rate / max_descent_rate))
        else altitude_start + t * altitude_diff
      xy.withZ z)
    .ok (some segment)

/-- The level-flight / transition split of `_build_trajectory_with_runway_alignment`
(lines 587-599): when the slope-limited descent plus transition does not fit in the
available distance, level flight is dropped and the transition is capped at 30% of
the distance; otherwise the remainder is flown level. Returns
`(level_flight_distance, transition_distance)`. -/
def descent_phase_lengths (min_descent_distance transition_base
    total_distance_to_faf : ℝ) : ℝ × ℝ :=
  if min_descent_distance + transition_base ≥ total_distance_to_faf then
    (0.0, min transition_base (total_distance_to_faf * 0.3))
  else (total_distance_to_faf - (min_descent_distance + transition_base),
    transition_base)

/-- The `for attempt in range(5)` / `else` retry ladder of
`_build_trajectory_with_runway_alignment` (lines 765-878): margins
`2.0 + 0.5·attempt`; the first collision-free rebuild is returned; when the list of
attempts is exhausted the emergency branch runs. -/
def retry_attempts (rebuild : ℝ → List Vec3) (cylinders : List Cylinder)
    (emergency : Except PyErr (Option (List Vec3))) :
    List ℕ → Except PyErr (Option (List Vec3))
  | [] => emergency
  | attempt :: rest =>
    let safety_factor := 2.0 + (attempt : ℝ) * 0.5
    let trajectory_retry := rebuild safety_factor
    if has_trajectory_collision trajectory_retry cylinders then
      retry_attempts rebuild cylinders emergency rest
    else .ok (some trajectory_retry)

/-- `_build_trajectory_with_runway_alignment`. `intercept_point` is accepted but never
read (the source ignores it when assembling the two-phase path). Returns
`.ok (some …)` for a delivered trajectory, `.ok none` for the explicit
`(None, {})` failure, `.error` for a raised exception. -/
def build_trajectory_with_runway_alignment (aircraft : Aircraft) (start_pos : Vec3)
    (intercept_point : Vec2) (faf_pos : Vec3) (current_dir runway_dir : Vec2)
    (cylinders : List Cylinder) : Except PyErr (Option (List Vec3 × FlightParams)) :=
  let total_distance_to_faf := (faf_pos.xy - start_pos.xy).norm
  let initial_flight_dist := np_clip (total_distance_to_faf * 0.20) 1.0 5.0
  let initial_end_point := start_pos.xy + initial_flight_dist • current_dir
  let altitude_start := start_pos.z
  let altitude_end := faf_pos.z
  let altitude_diff := altitude_end - altitude_start
  let max_descent_slope_rad := radians aircraft.max_descent_slope
  let min_descent_distance := |altitude_diff / Real.tan (|max_descent_slope_rad|)|
  let transition_base := max (min (min_descent_distance * 0.50) 12.0) 3.0
  let phase_lengths := descent_phase_lengths min_descent_distance transition_base
    total_distance_to_faf
  let level_flight_distance := phase_lengths.1
  let transition_distance := phase_lengths.2
  let drop_rate := |Real.tan max_descent_slope_rad|
  let init_seg := initial_segment_list start_pos current_dir initial_flight_dist
  let waypoints_2d := [initial_end_point] ++
    (if cylinders = [] then [] else
      calculate_avoidance_waypoints initial_end_point faf_pos.xy cylinders start_pos.z) ++
    [faf_pos.xy]
  let traj0 := init_seg ++ bezier_chain waypoints_2d current_dir runway_dir
    altitude_start altitude_end level_flight_distance transition_distance drop_rate
  let trajectory := set_last_to (smooth_final traj0 faf_pos) faf_pos
  let result :=
    if cylinders = [] then Except.ok (some trajectory)
    else if ¬ has_trajectory_collision trajectory cylinders then Except.ok (some trajectory)
    else
      retry_attempts (fun safety_factor =>
          let waypoints_retry := [initial_end_point] ++
            calculate_avoidance_waypoints_with_margin initial_end_point faf_pos.xy
              cylinders start_pos.z safety_factor ++ [faf_pos.xy]
          set_last_to (init_seg ++ bezier_chain waypoints_retry current_dir runway_dir
            altitude_start altitude_end level_flight_distance transition_distance drop_rate)
            faf_pos)
        cylinders
        (calculate_emergency_avoidance_trajectory start_pos faf_pos cylinders)
        (List.range 5)
  result.map (Option.map (fun traj => (traj, calculate_parameters traj aircraft.speed)))

/-- `calculate_trajectory` (progressive-alignment mode entry point), with its two
degenerate fallbacks. -/
def calculate_trajectory (env : Environment) (aircraft : Aircraft)
    (cylinders : List Cylinder) : Except PyErr (Option (List Vec3 × FlightParams)) :=
  let start_pos := aircraft.position
  let faf_pos := env.faf_position
  let airport_pos := env.airport_position
  let runway_axis := airport_pos.xy - faf_pos.xy
  let runway_axis_distance := runway_axis.norm
  if runway_axis_distance < 0.1 then
    .ok (some (calculate_simple_trajectory aircraft start_pos faf_pos))
  else
    let runway_direction := (1 / runway_axis_distance) • runway_axis
    let heading_rad := radians aircraft.heading
    let current_direction : Vec2 := ⟨Real.sin heading_rad, Real.cos heading_rad⟩
    let cos_angle := current_direction.dot runway_direction
    let angle_to_runway := degrees (Real.arccos (np_clip cos_angle (-1.0) 1.0))
    let horizontal_distance := (faf_pos.xy - start_pos.xy).norm
    if horizontal_distance < 0.1 then
      .ok (some (vertical_trajectory aircraft start_pos faf_pos))
    else
      let ip := calculate_runway_intercept_point start_pos.xy current_direction
        airport_pos.xy faf_pos.xy runway_direction angle_to_runway
      build_trajectory_with_runway_alignment aircraft start_pos ip faf_pos
        current_direction runway_direction cylinders

/-- `_calculate_tangent_intercept`: circle tangent to the current heading meeting the
approach axis; `none` models the `(None, None, None)` return when the discriminant is
negative. -/
def calculate_tangent_intercept (start_pos current_dir approach_dir airport_pos
    faf_pos : Vec2) (radius : ℝ) : Option (Vec2 × Vec2 × ℝ) :=
  let cross := current_dir.x * approach_dir.y - current_dir.y * approach_dir.x
  let turn_direction : ℝ := if cross > 0 then 1 else -1
  let perp_current := turn_direction • (⟨-current_dir.y, current_dir.x⟩ : Vec2)
  let turn_center := start_pos + radius • perp_current
  let vec_to_center := turn_center - airport_pos
  let qa := approach_dir.dot approach_dir
  let qb := -2 * vec_to_center.dot approach_dir
  let qc := vec_to_center.dot vec_to_center - radius ^ 2
  let discriminant := qb ^ 2 - 4 * qa * qc
  if discriminant < 0 then none else
  let t1 := (-qb + Real.sqrt discriminant) / (2 * qa)
  let t2 := (-qb - Real.sqrt discriminant) / (2 * qa)
  let point1 := airport_pos + t1 • approach_dir
  let point2 := airport_pos + t2 • approach_dir
  let dist1_to_faf := (point1 - faf_pos).norm
  let dist2_to_faf := (point2 - faf_pos).norm
  let runway_len := (faf_pos - airport_pos).norm
  let intercept_point :=
    if t1 > 0 ∧ dist1_to_faf < runway_len * 1.5 then point1
    else if t2 > 0 ∧ dist2_to_faf < runway_len * 1.5 then point2
    else if dist1_to_faf < dist2_to_faf then point1 else point2
  let vec_start := start_pos - turn_center
  let vec_end := intercept_point - turn_center
  let cos_angle := np_clip (vec_start.dot vec_end / (vec_start.norm * vec_end.norm))
    (-1.0) 1.0
  let turn_angle := Real.arccos cos_angle
  let cross_check := vec_start.x * vec_end.y - vec_start.y * vec_end.x
  let turn_angle_signed := if cross_check * turn_direction < 0 then -turn_angle
    else turn_angle
  some (intercept_point, turn_center, turn_angle_signed)

/-- `_create_arc_trajectory`: constant-altitude circular arc, one sample per ~2°. -/
def create_arc_trajectory (start_pos center : Vec2) (angle radius altitude : ℝ) :
    List Vec3 :=
  let n_points := max (py_int (|degrees angle| / 2)).toNat 10
  let vec_to_start := start_pos - center
  let angle_start := arctan2 vec_to_start.y vec_to_start.x
  (List.range n_points).map (fun (i : ℕ) =>
    let a := angle_start + (i : ℝ) * angle / ((n_points : ℝ) - 1)
    ⟨center.x + radius * Real.cos a, center.y + radius * Real.sin a, altitude⟩)

/-- `_calculate_approach_with_descent_and_speed`: post-arc approach with the
level/transition/linear-descent altitude phases and the speed profile whose
deceleration zone starts at 33% of the horizontal distance. -/
def calculate_approach_with_descent_and_speed (aircraft : Aircraft)
    (start_pos target_pos : Vec3) (direction : Vec2) (target_speed : ℝ) :
    List Vec3 × List ℝ :=
  let horizontal_distance := (target_pos.xy - start_pos.xy).norm
  let altitude_diff := target_pos.z - start_pos.z
  let initial_speed := aircraft.speed
  if altitude_diff ≥ 0 then
    let n_points := max (py_int (horizontal_distance * 50)).toNat 50
    ((List.range n_points).map (fun (i : ℕ) =>
        start_pos + ((i : ℝ) / ((n_points : ℝ) - 1)) • (target_pos - start_pos)),
     (List.range n_points).map (fun (i : ℕ) =>
        initial_speed + ((i : ℝ) / ((n_points : ℝ) - 1)) * (target_speed - initial_speed)))
  else
    let max_descent_slope_rad := radians aircraft.max_descent_slope
    let min_descent_distance := |altitude_diff / Real.tan max_descent_slope_rad|
    let transition_distance := max (min (min_descent_distance * 0.15) 3.0) 1.0
    let level_distance :=
      if horizontal_distance < min_descent_distance then 0
      else max 0 (horizontal_distance - min_descent_distance - transition_distance)
    let total_points := max 500 (py_int (horizontal_distance * 100)).toNat
    let decel_start_distance := horizontal_distance * 0.33
    ((List.range total_points).map (fun (i : ℕ) =>
        let t := (i : ℝ) / ((total_points : ℝ) - 1)
        let current_distance := t * horizontal_distance
        let xy := start_pos.xy + current_distance • direction
        let z :=
          if current_distance < level_distance then start_pos.z
          else if current_distance < level_distance + transition_distance then
            let transition_progress := (current_distance - level_distance) / transition_distance
            let smooth_factor := (1 - Real.cos (transition_progress * π)) / 2
            start_pos.z + smooth_factor * altitude_diff *
              (transition_distance / min_descent_distance)
          else
            let descent_distance := current_distance - level_distance - transition_distance
            start_pos.z + altitude_diff *
              ((transition_distance + descent_distance) / min_descent_distance)
        xy.withZ z),
     (List.range total_points).map (fun (i : ℕ) =>
        let t := (i : ℝ) / ((total_points : ℝ) - 1)
        let current_distance := t * horizontal_distance
        if current_distance < decel_start_distance then initial_speed
        else
          let decel_progress := (current_distance - decel_start_distance) /
            (horizontal_distance - decel_start_distance)
          let smooth_decel := (1 + Real.cos ((1 - decel_progress) * π)) / 2
          target_speed + smooth_decel * (initial_speed - target_speed)))

/-- `calculate_trajectory_with_turn` (tangent-arc mode). On `NoTangentSolution` it
falls back to progressive-alignment mode, forwarding the obstacle list; on success it
returns arc + approach with the variable-speed parameter derivation, without any
collision validation. -/
def calculate_trajectory_with_turn (env : Environment) (aircraft : Aircraft)
    (cylinders : List Cylinder) : Except PyErr (Option (List Vec3 × FlightParams)) :=
  let start_pos := aircraft.position
  let faf_pos := env.faf_position
  let airport_pos := env.airport_position
  let min_radius := aircraft.calculate_min_turn_radius
  let approach_vec := faf_pos.xy - airport_pos.xy
  let approach_direction := (1 / approach_vec.norm) • approach_vec
  let heading_rad := radians aircraft.heading
  let current_direction : Vec2 := ⟨Real.sin heading_rad, Real.cos heading_rad⟩
  match calculate_tangent_intercept start_pos.xy current_direction approach_direction
      airport_pos.xy faf_pos.xy min_radius with
  | none => calculate_trajectory env aircraft cylinders
  | some (intercept_point, turn_center, turn_angle) =>
    let arc_trajectory := create_arc_trajectory start_pos.xy turn_center turn_angle
      min_radius start_pos.z
    let post_turn_pos := intercept_point.withZ start_pos.z
    let approach_speed := aircraft.get_approach_speed
    let ap := calculate_approach_with_descent_and_speed aircraft post_turn_pos faf_pos
      approach_direction approach_speed
    let trajectory := arc_trajectory ++ ap.1
    let parameters := calculate_parameters_with_speed_profile trajectory aircraft.speed
      arc_trajectory.length ap.2
    .ok (some (trajectory, parameters))

/-- The spec's per-sample safety predicate for C1: horizontal distance strictly above
the radius, or altitude strictly above the obstacle height. -/
def claim_sample_safe (p : Vec3) (c : Cylinder) : Prop :=
  Real.sqrt ((p.x - c.x) ^ 2 + (p.y - c.y) ^ 2) > c.radius ∨ p.z > c.height

/-- C1's claimed trajectory-level property. -/
def claim_trajectory_safe (traj : List Vec3) (cyls : List Cylinder) : Prop :=
  ∀ p ∈ traj, ∀ c ∈ cyls, claim_sample_safe p c

/-- The trajectory delivered by a planner result, when there is one. -/
def returned_trajectory (r : Except PyErr (Option (List Vec3 × FlightParams))) :
    Option (List Vec3) :=
  match r with
  | .ok (some tp) => some tp.1
  | _ => none

/-- The parameter dict delivered by a planner result, when there is one. -/
def returned_params (r : Except PyErr (Option (List Vec3 × FlightParams))) :
    Option FlightParams :=
  match r with
  | .ok (some tp) => some tp.2
  | _ => none

/-- Any trajectory delivered by the result passes the source's collision check. -/
def result_collision_free (cyls : List Cylinder)
    (r : Except PyErr (Option (List Vec3 × FlightParams))) : Prop :=
  match r with
  | .ok (some tp) => ¬ has_trajectory_collision tp.1 cyls
  | _ => True

/-- Any trajectory delivered by the result satisfies the claimed predicate `P`. -/
def result_satisfies (P : List Vec3 → Prop)
    (r : Except PyErr (Option (List Vec3 × FlightParams))) : Prop :=
  match r with
  | .ok (some tp) => P tp.1
  | _ => True

/-- C8's claimed invariant: strictly positive Euclidean distance between every pair of
consecutive samples. -/
def strictly_increasing_samples (traj : List Vec3) : Prop :=
  ∀ i, i + 1 < traj.length →
    0 < (traj.getD (i + 1) ⟨0, 0, 0⟩ - traj.getD i ⟨0, 0, 0⟩).norm

/-- Modelled from the spec (claim C6 wording): detour waypoints for one conflicting
obstacle placed at exactly `projection ± approach_distance` along the segment — no
clamping of the bases to the segment — then offset perpendicularly and re-projected
onto the boundary circle if still too close. Used only to compare the claim's
predicted placement with the source's. -/
def spec_detour_waypoints (start_2d end_2d : Vec2) (cylinder : Cylinder)
    (safety_margin : ℝ) : List Vec2 :=
  let traj_vec := end_2d - start_2d
  let traj_dist := traj_vec.norm
  let traj_dir := (1 / traj_dist) • traj_vec
  let cyl_center : Vec2 := ⟨cylinder.x, cylinder.y⟩
  let cyl_radius := cylinder.radius + safety_margin
  let to_cyl := cyl_center - start_2d
  let proj_length := to_cyl.dot traj_dir
  let closest_point := start_2d + proj_length • traj_dir
  let dist_to_segment := (cyl_center - closest_point).norm
  let perp : Vec2 := ⟨-traj_dir.y, traj_dir.x⟩
  let cross_product := to_cyl.x * traj_dir.y - to_cyl.y * traj_dir.x
  let side : ℝ := if cross_product > 0 then 1 else -1
  let approach_distance := max (cyl_radius * 0.8) 1.0
  let entry_base := start_2d + (proj_length - approach_distance) • traj_dir
  let exit_base := start_2d + (proj_length + approach_distance) • traj_dir
  let offset_distance := (cylinder.radius - dist_to_segment) + safety_margin
  let entry_point := entry_base + (side * offset_distance) • perp
  let exit_point := exit_base + (side * offset_distance) • perp
  let dist_entry := (entry_point - cyl_center).norm
  let dist_exit := (exit_point - cyl_center).norm
  let min_safe_distance := cylinder.radius + safety_margin
  let entry_final := if dist_entry < min_safe_distance then
      cyl_center + (min_safe_distance / dist_entry) • (entry_point - cyl_center)
    else entry_point
  let exit_final := if dist_exit < min_safe_distance then
      cyl_center + (min_safe_distance / dist_exit) • (exit_point - cyl_center)
    else exit_point
  [entry_final, exit_final]

/-- Modelled from the spec (claim C7 wording): the interception point lies at
projected distance `runway_length - 0.5` from the airport, except when the
aircraft's projection is below 30% of the runway length, in which case it lies at
`min(projection + max(2*perpendicular_offset, 0.1*angle_to_runway, 3), 0.95*runway_length)`. -/
def spec_intercept_point (start_pos airport_pos faf_pos runway_dir : Vec2)
    (angle_to_runway : ℝ) : Vec2 :=
  let projection := (start_pos - airport_pos).dot runway_dir
  let runway_length := (faf_pos - airport_pos).norm
  let closest_point := airport_pos + projection • runway_dir
  let perpendicular_offset := (start_pos - closest_point).norm
  if projection < runway_length * 0.3 then
    airport_pos + (min (projection +
      max (2 * perpendicular_offset) (max (0.1 * angle_to_runway) 3.0))
      (runway_length * 0.95)) • runway_dir
  else
    airport_pos + (runway_length - 0.5) • runway_dir

/-- Both series delivered by a planner result satisfy `P`, when a plan is delivered. -/
def result_satisfies_pair (P : List Vec3 → FlightParams → Prop)
    (r : Except PyErr (Option (List Vec3 × FlightParams))) : Prop :=
  match r with
  | .ok (some tp) => P tp.1 tp.2
  | _ => True

/-- Modelled from the spec (claim C5 wording): each time step equals the Euclidean
distance between the two samples divided by the average of their speeds (hours,
hence the 3600 to seconds). -/
def time_matches_distance_over_speed (traj : List Vec3) (p : FlightParams) : Prop :=
  ∀ i : ℕ, i + 1 < traj.length →
    p.time.getD (i + 1) 0 - p.time.getD i 0 =
      (traj.getD (i + 1) ⟨0, 0, 0⟩ - traj.getD i ⟨0, 0, 0⟩).norm /
        ((p.speed.getD (i + 1) 0 + p.speed.getD i 0) / 2) * 3600

/-- `traj_dist` of the avoidance-waypoint routines: length of the 2-D segment. -/
def traj_dist_of (s e : Vec2) : ℝ := (e - s).norm

/-- `traj_dir` of the avoidance-waypoint routines: unit vector along the segment. -/
def traj_dir_of (s e : Vec2) : Vec2 := (1 / (e - s).norm) • (e - s)

/-- `proj_length`: projection of the obstacle center onto the segment direction. -/
def proj_length_of (s e : Vec2) (c : Cylinder) : ℝ :=
  ((⟨c.x, c.y⟩ : Vec2) - s).dot (traj_dir_of s e)

/-- `dist_to_segment`: perpendicular distance from the obstacle center to the line. -/
def dist_to_segment_of (s e : Vec2) (c : Cylinder) : ℝ :=
  ((⟨c.x, c.y⟩ : Vec2) - (s + proj_length_of s e c • traj_dir_of s e)).norm

/-- `approach_distance` of the first-attempt avoidance routine (margin 0.5, floor 1 km). -/
def approach_distance_of (c : Cylinder) : ℝ := max ((c.radius + 0.5) * 0.8) 1.0

/- Concrete planning scenarios used by the witnesses and counterexamples. -/

/-- Progressive-mode scenario: runway axis due North, aircraft 20 km south of the FAF
heading straight at it. -/
def env_prog : Environment := ⟨⟨0, 30, 0⟩, ⟨0, 20, 0.5⟩⟩

/-- Aircraft for the progressive-mode scenario. -/
def ac_prog : Aircraft := ⟨⟨0, 0, 1⟩, 250, 0, "commercial"⟩

/-- A cylinder so large that every candidate trajectory collides with it. -/
def cyl_big : Cylinder := ⟨0, 0, 1000, 1000⟩

/-- Tangent-arc scenario (level approach): aircraft already on the approach axis,
heading along it; FAF at the aircraft's altitude. -/
def env_turn1 : Environment := ⟨⟨0, -10, 0⟩, ⟨0, 10, 1⟩⟩

/-- Tangent-arc scenario (descending approach): same geometry, FAF 0.5 km lower. -/
def env_turn2 : Environment := ⟨⟨0, -10, 0⟩, ⟨0, 10, 0.5⟩⟩

/-- Aircraft for the tangent-arc scenarios. -/
def ac_turn : Aircraft := ⟨⟨0, 0, 1⟩, 250, 0, "commercial"⟩

/-- An obstacle sitting squarely on the tangent-mode approach segment, taller than the
flight altitude. -/
def cyl_mid : Cylinder := ⟨0, 5, 1, 2⟩

/-- Degenerate scenario: aircraft horizontally on top of the FAF (vertical descent
fallback). -/
def env_vert : Environment := ⟨⟨5, 8, 0⟩, ⟨5, 5, 0.5⟩⟩

/-- Aircraft for the vertical-descent scenario. -/
def ac_vert : Aircraft := ⟨⟨5, 5, 2⟩, 250, 0, "commercial"⟩

/-- The trajectory delivered by the progressive builder in the obstacle-free
reference scenario (aircraft at `(0,0,1)` heading North, FAF at `(0,20,0.5)`,
runway axis due North): initial level segment, Bezier approach, final smoothing,
last sample overwritten with the FAF. -/
noncomputable def c3_traj : List Vec3 :=
  let start_pos : Vec3 := ⟨0, 0, 1⟩
  let faf_pos : Vec3 := ⟨0, 20, 0.5⟩
  let current_dir : Vec2 := ⟨0, 1⟩
  let runway_dir : Vec2 := ⟨0, 1⟩
  let total_distance_to_faf := (faf_pos.xy - start_pos.xy).norm
  let initial_flight_dist := np_clip (total_distance_to_faf * 0.20) 1.0 5.0
  let initial_end_point := start_pos.xy + initial_flight_dist • current_dir
  let altitude_start := start_pos.z
  let altitude_end := faf_pos.z
  let altitude_diff := altitude_end - altitude_start
  let max_descent_slope_rad := radians ac_prog.max_descent_slope
  let min_descent_distance := |altitude_diff / Real.tan (|max_descent_slope_rad|)|
  let transition_base := max (min (min_descent_distance * 0.50) 12.0) 3.0
  let phase_lengths := descent_phase_lengths min_descent_distance transition_base
    total_distance_to_faf
  let drop_rate := |Real.tan max_descent_slope_rad|
  let init_seg := initial_segment_list start_pos current_dir initial_flight_dist
  let waypoints_2d := [initial_end_point] ++ [] ++ [faf_pos.xy]
  let traj0 := init_seg ++ bezier_chain waypoints_2d current_dir runway_dir
    altitude_start altitude_end phase_lengths.1 phase_lengths.2 drop_rate
  set_last_to (smooth_final traj0 faf_pos) faf_pos

/-- The 300-sample smoothstep descent trajectory produced by `_vertical_trajectory`
in the vertical-descent scenario (start `(5,5,2)`, FAF `(5,5,0.5)`). -/
noncomputable def vertV : List Vec3 :=
  (List.range 300).map (fun (i : ℕ) =>
    let t := (i : ℝ) / (((300 : ℕ) : ℝ) - 1)
    let smooth_t := t * t * (3.0 - 2.0 * t)
    (⟨5, 5, 2⟩ : Vec3) + smooth_t • ((⟨5, 5, 0.5⟩ : Vec3) - ⟨5, 5, 2⟩))

/-! ### Component and helper lemmas -/

@[simp] lemma Vec2.add_x2 (a b : Vec2) : (a + b).x = a.x + b.x := rfl

@[simp] lemma Vec2.add_y2 (a b : Vec2) : (a + b).y = a.y + b.y := rfl

@[simp] lemma Vec2.sub_x2 (a b : Vec2) : (a - b).x = a.x - b.x := rfl

@[simp] lemma Vec2.sub_y2 (a b : Vec2) : (a - b).y = a.y - b.y := rfl

@[simp] lemma Vec2.smul_x2 (c : ℝ) (v : Vec2) : (c • v).x = c * v.x := rfl

@[simp] lemma Vec2.smul_y2 (c : ℝ) (v : Vec2) : (c • v).y = c * v.y := rfl

@[simp] lemma Vec3.add_x3 (a b : Vec3) : (a + b).x = a.x + b.x := rfl

@[simp] lemma Vec3.add_y3 (a b : Vec3) : (a + b).y = a.y + b.y := rfl

@[simp] lemma Vec3.add_z (a b : Vec3) : (a + b).z = a.z + b.z := rfl

@[simp] lemma Vec3.sub_x3 (a b : Vec3) : (a - b).x = a.x - b.x := rfl

@[simp] lemma Vec3.sub_y3 (a b : Vec3) : (a - b).y = a.y - b.y := rfl

@[simp] lemma Vec3.sub_z (a b : Vec3) : (a - b).z = a.z - b.z := rfl

@[simp] lemma Vec3.smul_x3 (c : ℝ) (v : Vec3) : (c • v).x = c * v.x := rfl

@[simp] lemma Vec3.smul_y3 (c : ℝ) (v : Vec3) : (c • v).y = c * v.y := rfl

@[simp] lemma Vec3.smul_z (c : ℝ) (v : Vec3) : (c • v).z = c * v.z := rfl

@[simp] lemma Vec3.xy_mk (a b c : ℝ) : (Vec3.mk a b c).xy = ⟨a, b⟩ := rfl

@[simp] lemma Vec2.withZ_mk (a b z : ℝ) : (Vec2.mk a b).withZ z = ⟨a, b, z⟩ := rfl

@[simp] lemma Vec2.mk_x2 (a b : ℝ) : (Vec2.mk a b).x = a := rfl

@[simp] lemma Vec2.mk_y2 (a b : ℝ) : (Vec2.mk a b).y = b := rfl

@[simp] lemma Vec3.mk_x3 (a b c : ℝ) : (Vec3.mk a b c).x = a := rfl

@[simp] lemma Vec3.mk_y3 (a b c : ℝ) : (Vec3.mk a b c).y = b := rfl

@[simp] lemma Vec3.mk_z (a b c : ℝ) : (Vec3.mk a b c).z = c := rfl

@[simp] lemma Vec3.xy_x (v : Vec3) : v.xy.x = v.x := rfl

@[simp] lemma Vec3.xy_y (v : Vec3) : v.xy.y = v.y := rfl

@[simp] lemma Vec2.withZ_x (v : Vec2) (z : ℝ) : (v.withZ z).x = v.x := rfl

@[simp] lemma Vec2.withZ_y (v : Vec2) (z : ℝ) : (v.withZ z).y = v.y := rfl

@[simp] lemma Vec2.withZ_z (v : Vec2) (z : ℝ) : (v.withZ z).z = z := rfl

lemma Vec2.mk_add2 (a b c d : ℝ) : (Vec2.mk a b) + (Vec2.mk c d) = ⟨a + c, b + d⟩ := rfl

lemma Vec2.mk_sub2 (a b c d : ℝ) : (Vec2.mk a b) - (Vec2.mk c d) = ⟨a - c, b - d⟩ := rfl

lemma Vec2.mk_smul2 (r a b : ℝ) : r • (Vec2.mk a b) = ⟨r * a, r * b⟩ := rfl

lemma Vec3.mk_sub3 (a b c d e f : ℝ) :
    (Vec3.mk a b c) - (Vec3.mk d e f) = ⟨a - d, b - e, c - f⟩ := rfl

lemma Vec3.mk_add3 (a b c d e f : ℝ) :
    (Vec3.mk a b c) + (Vec3.mk d e f) = ⟨a + d, b + e, c + f⟩ := rfl

lemma Vec3.mk_smul3 (r a b c : ℝ) : r • (Vec3.mk a b c) = ⟨r * a, r * b, r * c⟩ := rfl

@[simp] lemma Vec2.dot_mk (a b c d : ℝ) : (Vec2.mk a b).dot ⟨c, d⟩ = a * c + b * d := rfl

/-- Evaluate a 2-vector norm when the answer is known. -/
lemma Vec2.norm_eval2 {a b c : ℝ} (hc : 0 ≤ c) (h : a ^ 2 + b ^ 2 = c ^ 2) :
    (Vec2.mk a b).norm = c := by
  unfold Vec2.norm
  simp only [Vec2.mk_x2, Vec2.mk_y2, h]
  exact Real.sqrt_sq hc

/-- Evaluate a 3-vector norm when the answer is known. -/
lemma Vec3.norm_eval3 {a b c d : ℝ} (hd : 0 ≤ d) (h : a ^ 2 + b ^ 2 + c ^ 2 = d ^ 2) :
    (Vec3.mk a b c).norm = d := by
  unfold Vec3.norm
  simp only [Vec3.mk_x3, Vec3.mk_y3, Vec3.mk_z, h]
  exact Real.sqrt_sq hd

lemma py_int_toNat_eq (x : ℝ) (n : ℕ) (h : x = n) : (py_int x).toNat = n := by
  subst h
  simp [py_int, Int.floor_natCast]

@[simp] lemma py_int_zero : py_int 0 = 0 := by simp [py_int]

lemma List.getD_range_map {α : Type*} (f : ℕ → α) {n i : ℕ} (h : i < n) (d : α) :
    (((List.range n).map f).getD i d) = f i := by
  rw [List.getD_eq_getElem?_getD]
  simp [List.getElem?_map, List.getElem?_range h]

lemma getD_append_lt {α : Type*} (l₁ l₂ : List α) {i : ℕ} (h : i < l₁.length)
    (d : α) : ((l₁ ++ l₂).getD i d) = l₁.getD i d :=
  List.getD_append _ _ _ _ h

lemma getD_append_ge {α : Type*} (l₁ l₂ : List α) {i : ℕ} (h : l₁.length ≤ i)
    (d : α) : ((l₁ ++ l₂).getD i d) = l₂.getD (i - l₁.length) d :=
  List.getD_append_right _ _ _ _ h

/-! ### Numeric facts about the aircraft profiles -/

lemma commercial_lookup : get_specifications "commercial" = commercial_specs := rfl

lemma ac_turn_descent_slope : ac_turn.max_descent_slope = -6 := rfl

lemma ac_turn_speed : ac_turn.speed = 250 := rfl

lemma ac_turn_approach_speed : ac_turn.get_approach_speed = 180 := rfl

/-- The descent-slope magnitude `tan 6°` is strictly above 0.1 (so in particular the
minimum slope-limited descent distance for a 0.5 km drop is below 5 km). -/
lemma tan_six_deg_gt : 0.1 < Real.tan (6 * π / 180) := by
  have h30 : (6 : ℝ) * π / 180 = π / 30 := by ring
  have hpos : 0 < π / 30 := by positivity
  have hlt : π / 30 < π / 2 := by nlinarith [Real.pi_pos]
  have h1 : π / 30 < Real.tan (π / 30) := Real.lt_tan hpos hlt
  have h2 : (0.1 : ℝ) < π / 30 := by nlinarith [Real.pi_gt_three]
  rw [h30]
  linarith

lemma tan_six_deg_pos : 0 < Real.tan (6 * π / 180) := by
  have := tan_six_deg_gt
  norm_num at this ⊢
  linarith

/-- The minimum turn radius of the tangent-mode aircraft is positive. -/
lemma min_turn_radius_pos : 0 < ac_turn.calculate_min_turn_radius := by
  unfold Aircraft.calculate_min_turn_radius
  have hbank : ac_turn.max_bank_angle = 25 := rfl
  rw [hbank]
  have h1 : 0 < radians 25 := by unfold radians; positivity
  have h2 : radians 25 < π / 2 := by unfold radians; nlinarith [Real.pi_pos]
  have ht : 0 < Real.tan (radians 25) := Real.tan_pos_of_pos_of_lt_pi_div_two h1 h2
  have hs : ac_turn.speed = 250 := rfl
  rw [hs]
  have h3 : (0 : ℝ) < (250 / 3.6) ^ 2 := by norm_num
  have h4 : (0 : ℝ) < 9.81 * Real.tan (radians 25) := by nlinarith
  positivity

/-! ### Evaluation of the tangent-arc scenarios -/

lemma Vec2.norm_0y (y : ℝ) : (Vec2.mk 0 y).norm = |y| := by
  unfold Vec2.norm
  simp only [Vec2.mk_x2, Vec2.mk_y2]
  rw [show (0:ℝ)^2 + y^2 = y^2 by ring, Real.sqrt_sq_eq_abs]

lemma Vec2.norm_x0 (x : ℝ) : (Vec2.mk x 0).norm = |x| := by
  unfold Vec2.norm
  simp only [Vec2.mk_x2, Vec2.mk_y2]
  rw [show x^2 + (0:ℝ)^2 = x^2 by ring, Real.sqrt_sq_eq_abs]

/-- In the tangent scenarios the aircraft sits on the approach axis heading along it;
the tangent circle therefore touches the axis at the start point itself
(discriminant 0, interception at the aircraft position, turn angle 0). -/
lemma tangent_intercept_eval (R : ℝ) (hR : 0 < R) :
    calculate_tangent_intercept ⟨0, 0⟩ ⟨0, 1⟩ ⟨0, 1⟩ ⟨0, -10⟩ ⟨0, 10⟩ R =
      some (⟨0, 0⟩, ⟨R, 0⟩, 0) := by
  unfold calculate_tangent_intercept
  simp only [Vec2.mk_x2, Vec2.mk_y2, Vec2.dot_mk, Vec2.mk_smul2, Vec2.mk_add2, Vec2.mk_sub2,
    Vec2.smul_x2, Vec2.smul_y2, Vec2.add_x2, Vec2.add_y2, Vec2.sub_x2, Vec2.sub_y2]
  norm_num
  rw [show R * R + 100 - R ^ 2 = (100:ℝ) from by ring]
  norm_num [Vec2.norm_0y, Vec2.norm_x0]
  have hsub : ((⟨0, 0⟩ : Vec2) - ⟨R, 0⟩) = ⟨-R, 0⟩ := by ext <;> simp
  rw [hsub, Vec2.norm_x0]
  simp only [Vec2.dot_mk]
  rw [abs_neg, abs_of_pos hR]
  have hRR : R ≠ 0 := hR.ne'
  rw [show (-R * -R + 0 * 0) / (R * R) = 1 from by field_simp]
  norm_num [np_clip]

lemma ac_turn_heading : ac_turn.heading = 0 := rfl

lemma ac_turn_position : ac_turn.position = ⟨0, 0, 1⟩ := rfl

lemma radians_zero : radians 0 = 0 := by unfold radians; ring

lemma degrees_zero : degrees 0 = 0 := by unfold degrees; ring

/-- Number of samples of the (degenerate, zero-angle) arc in the tangent scenarios. -/
lemma arc_turn_length (R alt : ℝ) :
    (create_arc_trajectory ⟨0, 0⟩ ⟨R, 0⟩ 0 R alt).length = 10 := by
  unfold create_arc_trajectory
  rw [show (py_int (|degrees 0| / 2)).toNat = 0 by simp [degrees_zero]]
  rw [List.length_map, List.length_range]
  rfl

/-- Full evaluation of the tangent-arc mode on the on-axis scenarios: the tangent
interception succeeds at the start point with turn angle 0, and the returned pair is
arc ++ approach with the variable-speed parameter derivation.  No collision check of
any kind is performed on the way. -/
lemma turn_result_eq (z : ℝ) (cyls : List Cylinder) :
    calculate_trajectory_with_turn ⟨⟨0, -10, 0⟩, ⟨0, 10, z⟩⟩ ac_turn cyls =
      .ok (some
        (create_arc_trajectory ⟨0, 0⟩ ⟨ac_turn.calculate_min_turn_radius, 0⟩ 0
            ac_turn.calculate_min_turn_radius 1 ++
          (calculate_approach_with_descent_and_speed ac_turn ⟨0, 0, 1⟩ ⟨0, 10, z⟩ ⟨0, 1⟩ 180).1,
         calculate_parameters_with_speed_profile
           (create_arc_trajectory ⟨0, 0⟩ ⟨ac_turn.calculate_min_turn_radius, 0⟩ 0
               ac_turn.calculate_min_turn_radius 1 ++
             (calculate_approach_with_descent_and_speed ac_turn ⟨0, 0, 1⟩ ⟨0, 10, z⟩ ⟨0, 1⟩ 180).1)
           250
           (create_arc_trajectory ⟨0, 0⟩ ⟨ac_turn.calculate_min_turn_radius, 0⟩ 0
               ac_turn.calculate_min_turn_radius 1).length
           (calculate_approach_with_descent_and_speed ac_turn ⟨0, 0, 1⟩ ⟨0, 10, z⟩ ⟨0, 1⟩ 180).2)) := by
  unfold calculate_trajectory_with_turn
  simp only [ac_turn_position, ac_turn_heading, Vec3.xy_mk, Vec3.mk_x3, Vec3.mk_y3, Vec3.mk_z,
    Vec2.mk_x2, Vec2.mk_y2, Vec2.mk_sub2, Vec2.mk_smul2, radians_zero, Real.sin_zero,
    Real.cos_zero]
  norm_num
  rw [Vec2.norm_0y]
  norm_num
  rw [tangent_intercept_eval _ min_turn_radius_pos]
  rfl

lemma getD_mem {α : Type*} {l : List α} {i : ℕ} (h : i < l.length) (d : α) :
    l.getD i d ∈ l := by
  rw [List.getD_eq_getElem l d h]
  exact List.getElem_mem h

/-- The level tangent-scenario approach phase: 500 straight-line samples. -/
lemma approach1_len :
    (calculate_approach_with_descent_and_speed ac_turn ⟨0, 0, 1⟩ ⟨0, 10, 1⟩ ⟨0, 1⟩ 180).1.length
      = 500 := by
  unfold calculate_approach_with_descent_and_speed
  simp only [Vec3.xy_mk, Vec3.mk_z, Vec2.mk_sub2, Vec3.mk_sub3]
  norm_num
  rw [Vec2.norm_0y]
  rw [py_int_toNat_eq _ 500 (by norm_num)]
  rfl

/-- Sample 200 of the level approach phase sits at `y = 2000/499`, altitude 1 —
inside the obstacle `cyl_mid` (horizontal distance `495/499 < 1`, below its top). -/
lemma approach1_sample200 :
    (calculate_approach_with_descent_and_speed ac_turn ⟨0, 0, 1⟩ ⟨0, 10, 1⟩ ⟨0, 1⟩ 180).1.getD 200
      ⟨0, 0, 0⟩ = ⟨0, 2000 / 499, 1⟩ := by
  unfold calculate_approach_with_descent_and_speed
  simp only [Vec3.xy_mk, Vec3.mk_z, Vec2.mk_sub2, Vec3.mk_sub3]
  norm_num
  rw [Vec2.norm_0y]
  rw [py_int_toNat_eq _ 500 (by norm_num)]
  rw [show ((500 : ℕ) ⊔ 50) = 500 from rfl]
  rw [List.getElem?_range (show (200 : ℕ) < 500 by norm_num)]
  simp only [Option.map_some, Option.getD_some, Option.map_some', max_eq_left
    (show (50 : ℝ) ≤ ((500 : ℕ) : ℝ) by norm_num)]
  ext <;> push_cast <;> norm_num

/-- Shorthand facts about `tan 6°` used in the descending tangent scenario. -/
lemma tan_six_bounds : 0 < Real.tan (6 * π / 180) ∧ 0.1 < Real.tan (6 * π / 180) :=
  ⟨tan_six_deg_pos, tan_six_deg_gt⟩

lemma tan_radians_neg_six :
    Real.tan (radians (-6)) = -Real.tan (6 * π / 180) := by
  rw [show radians (-6) = -(6 * π / 180) from by unfold radians; ring, Real.tan_neg]

/-- Last sample of the descending approach phase: the linear-descent formula evaluated
at the full horizontal distance, which stops `tan 6°` km above the FAF altitude. -/
lemma approach2_traj999 :
    (calculate_approach_with_descent_and_speed ac_turn ⟨0, 0, 1⟩ ⟨0, 10, 0.5⟩ ⟨0, 1⟩ 180).1.getD
      999 ⟨0, 0, 0⟩ = ⟨0, 10, 0.5 - Real.tan (6 * π / 180)⟩ := by
  obtain ⟨hTpos, hT⟩ := tan_six_bounds
  unfold calculate_approach_with_descent_and_speed
  simp only [Vec3.xy_mk, Vec3.mk_z, Vec2.mk_sub2, Vec3.mk_sub3, ac_turn_descent_slope,
    tan_radians_neg_six]
  norm_num
  rw [Vec2.norm_0y]
  rw [show |(10 : ℝ)| = 10 from by norm_num]
  rw [py_int_toNat_eq (10 * 100) 1000 (by norm_num)]
  rw [show ((500 : ℕ) ⊔ 1000) = 1000 from rfl]
  rw [show ((500 : ℝ) ⊔ ((1000 : ℕ) : ℝ)) = 1000 from by
    push_cast
    exact max_eq_right (by norm_num)]
  rw [List.getElem?_range (show (999 : ℕ) < 1000 by norm_num)]
  simp only [Option.map_some, Option.map_some', Option.getD_some]
  rw [show ((999 : ℕ) : ℝ) / (1000 - 1) * 10 = 10 from by push_cast; norm_num]
  rw [show |1 / 2 / Real.tan (6 * π / 180)| = 1 / 2 / Real.tan (6 * π / 180) from
    abs_of_pos (div_pos (by norm_num) hTpos)]
  generalize hTg : Real.tan (6 * π / 180) = T
  rw [hTg] at hTpos hT
  have hM5 : 1 / 2 / T < 5 := by rw [div_lt_iff hTpos]; nlinarith
  have hMpos : 0 < 1 / 2 / T := div_pos (by norm_num) hTpos
  rw [min_eq_left (show 1 / 2 / T * (3 / 20) ≤ 3 by linarith)]
  rw [max_eq_right (show 1 / 2 / T * (3 / 20) ≤ 1 by linarith)]
  rw [if_neg (show ¬(10 : ℝ) < 1 / 2 / T by push_neg; linarith)]
  rw [max_eq_right (show (0 : ℝ) ≤ 10 - 1 / 2 / T - 1 by linarith)]
  rw [if_neg (show ¬(10 : ℝ) < 10 - 1 / 2 / T - 1 by push_neg; linarith)]
  rw [if_neg (show ¬(10 : ℝ) < 10 - 1 / 2 / T - 1 + 1 by push_neg; linarith)]
  have hTne : T ≠ 0 := ne_of_gt hTpos
  simp only [Vec2.mk_smul2, Vec2.mk_add2, Vec2.withZ_mk, Vec3.mk.injEq]
  refine ⟨by norm_num, by norm_num, ?_⟩
  field_simp
  ring

/-- Length of the descending approach trajectory (1000 samples). -/
lemma approach2_len1 :
    (calculate_approach_with_descent_and_speed ac_turn ⟨0, 0, 1⟩ ⟨0, 10, 0.5⟩ ⟨0, 1⟩ 180).1.length
      = 1000 := by
  unfold calculate_approach_with_descent_and_speed
  simp only [Vec3.xy_mk, Vec3.mk_z, Vec2.mk_sub2, Vec3.mk_sub3, ac_turn_descent_slope,
    tan_radians_neg_six]
  norm_num
  rw [Vec2.norm_0y]
  rw [show |(10 : ℝ)| = 10 from by norm_num]
  rw [py_int_toNat_eq (10 * 100) 1000 (by norm_num)]
  rfl

/-- Length of the descending approach speed profile (1000 samples). -/
lemma approach2_len2 :
    (calculate_approach_with_descent_and_speed ac_turn ⟨0, 0, 1⟩ ⟨0, 10, 0.5⟩ ⟨0, 1⟩ 180).2.length
      = 1000 := by
  unfold calculate_approach_with_descent_and_speed
  simp only [Vec3.xy_mk, Vec3.mk_z, Vec2.mk_sub2, Vec3.mk_sub3, ac_turn_descent_slope,
    tan_radians_neg_six]
  norm_num
  rw [Vec2.norm_0y]
  rw [show |(10 : ℝ)| = 10 from by norm_num]
  rw [py_int_toNat_eq (10 * 100) 1000 (by norm_num)]
  rfl

/-- Last entry of the descending approach speed profile: the cosine formula at
deceleration progress 1 gives back the full cruise speed 250, not 180. -/
lemma approach2_speed999 :
    (calculate_approach_with_descent_and_speed ac_turn ⟨0, 0, 1⟩ ⟨0, 10, 0.5⟩ ⟨0, 1⟩ 180).2.getD
      999 0 = 250 := by
  unfold calculate_approach_with_descent_and_speed
  simp only [Vec3.xy_mk, Vec3.mk_z, Vec2.mk_sub2, Vec3.mk_sub3, ac_turn_descent_slope,
    tan_radians_neg_six, ac_turn_speed]
  norm_num
  rw [Vec2.norm_0y]
  rw [show |(10 : ℝ)| = 10 from by norm_num]
  rw [py_int_toNat_eq (10 * 100) 1000 (by norm_num)]
  rw [show ((500 : ℕ) ⊔ 1000) = 1000 from rfl]
  rw [List.getElem?_range (show (999 : ℕ) < 1000 by norm_num)]
  simp only [Option.map_some, Option.map_some', Option.getD_some]
  rw [show ((500 : ℝ) ⊔ ((1000 : ℕ) : ℝ)) = 1000 from by
    push_cast
    exact max_eq_right (by norm_num)]
  rw [show ((999 : ℕ) : ℝ) / (1000 - 1) * 10 = 10 from by push_cast; norm_num]
  rw [if_neg (show ¬(10 : ℝ) < 10 * (33 / 100) by norm_num)]
  rw [show (1 - ((10 : ℝ) - 10 * (33 / 100)) / (10 - 10 * (33 / 100))) * π = 0 from by
    norm_num]
  rw [Real.cos_zero]
  norm_num

lemma Vec3.norm_00z (z : ℝ) : (Vec3.mk 0 0 z).norm = |z| := by
  unfold Vec3.norm
  simp only [Vec3.mk_x3, Vec3.mk_y3, Vec3.mk_z]
  rw [show (0 : ℝ) ^ 2 + 0 ^ 2 + z ^ 2 = z ^ 2 by ring, Real.sqrt_sq_eq_abs]

lemma getLast?_eq_getD {α : Type*} {l : List α} (h : l ≠ []) (d : α) :
    l.getLast? = some (l.getD (l.length - 1) d) := by
  have hpos : 0 < l.length := List.length_pos.mpr h
  have hlt : l.length - 1 < l.length := Nat.sub_lt hpos one_pos
  rw [List.getLast?_eq_getElem?, List.getElem?_eq_getElem hlt,
    List.getD_eq_getElem l d hlt]

lemma env_turn1_eq : env_turn1 = ⟨⟨0, -10, 0⟩, ⟨0, 10, 1⟩⟩ := rfl

lemma env_turn2_eq : env_turn2 = ⟨⟨0, -10, 0⟩, ⟨0, 10, 0.5⟩⟩ := rfl

/-- C1 (counterexample). In tangent-arc mode the planner performs no collision
validation: with the obstacle `cyl_mid` (centre `(0,5)`, radius 1, height 2) sitting
on the approach axis, the returned trajectory contains sample 210 at
`(0, 2000/499, 1)`, whose horizontal distance to the obstacle centre is
`495/499 ≤ 1` while its altitude 1 is below the obstacle height 2 — the claimed
safety disjunction fails on a delivered trajectory. -/
theorem C1_counterexample :
    ¬ result_satisfies (fun t => claim_trajectory_safe t [cyl_mid])
      (calculate_trajectory_with_turn env_turn1 ac_turn [cyl_mid]) := by
  rw [env_turn1_eq, turn_result_eq]
  simp only [result_satisfies]
  set T := create_arc_trajectory ⟨0, 0⟩ ⟨ac_turn.calculate_min_turn_radius, 0⟩ 0
      ac_turn.calculate_min_turn_radius 1 ++
      (calculate_approach_with_descent_and_speed ac_turn ⟨0, 0, 1⟩ ⟨0, 10, 1⟩ ⟨0, 1⟩
        180).1 with hTdef
  intro h
  unfold claim_trajectory_safe at h
  have hlen : T.length = 510 := by
    rw [hTdef, List.length_append, arc_turn_length, approach1_len]
  have hval : T.getD 210 ⟨0, 0, 0⟩ = ⟨0, 2000 / 499, 1⟩ := by
    rw [hTdef, getD_append_ge _ _ (by rw [arc_turn_length]; norm_num)]
    simp only [arc_turn_length]
    rw [show (210 - 10 : ℕ) = 200 from rfl, approach1_sample200]
  have hmem : T.getD 210 ⟨0, 0, 0⟩ ∈ T := getD_mem (by rw [hlen]; norm_num) ⟨0, 0, 0⟩
  have hsafe := h _ hmem cyl_mid (by simp)
  rw [hval] at hsafe
  unfold claim_sample_safe at hsafe
  rcases hsafe with h1 | h2
  · have hs : Real.sqrt ((((⟨0, 2000 / 499, 1⟩ : Vec3)).x - cyl_mid.x) ^ 2 +
        (((⟨0, 2000 / 499, 1⟩ : Vec3)).y - cyl_mid.y) ^ 2) = 495 / 499 := by
      show Real.sqrt (((0 : ℝ) - 0) ^ 2 + (2000 / 499 - 5) ^ 2) = 495 / 499
      rw [show ((0 : ℝ) - 0) ^ 2 + (2000 / 499 - 5) ^ 2 = (495 / 499) ^ 2 by norm_num,
        Real.sqrt_sq (by norm_num)]
    rw [hs] at h1
    have : cyl_mid.radius = 1 := rfl
    rw [this] at h1
    norm_num at h1
  · have : cyl_mid.height = 2 := rfl
    rw [this] at h2
    norm_num at h2

/-- C3 (counterexample). In tangent-arc mode with a descending approach, the last
sample of the returned trajectory has altitude `0.5 − tan 6° ≈ 0.395` km while the
FAF is at 0.5 km: the terminal error is `tan 6° > 0.1` km, far beyond the claimed
`1e-6` km tolerance. -/
theorem C3_counterexample :
    ¬ result_satisfies
      (fun t => ∀ p, t.getLast? = some p → (p - (⟨0, 10, 0.5⟩ : Vec3)).norm ≤ 1e-6)
      (calculate_trajectory_with_turn env_turn2 ac_turn []) := by
  rw [env_turn2_eq, turn_result_eq]
  simp only [result_satisfies]
  set T := create_arc_trajectory ⟨0, 0⟩ ⟨ac_turn.calculate_min_turn_radius, 0⟩ 0
      ac_turn.calculate_min_turn_radius 1 ++
      (calculate_approach_with_descent_and_speed ac_turn ⟨0, 0, 1⟩ ⟨0, 10, 0.5⟩ ⟨0, 1⟩
        180).1 with hTdef
  intro h
  have hlen : T.length = 1010 := by
    rw [hTdef, List.length_append, arc_turn_length, approach2_len1]
  have hne : T ≠ [] := by
    intro hc
    rw [hc] at hlen
    simp at hlen
  have hlast := getLast?_eq_getD hne (⟨0, 0, 0⟩ : Vec3)
  rw [hlen] at hlast
  have hval : T.getD (1010 - 1) ⟨0, 0, 0⟩ = ⟨0, 10, 0.5 - Real.tan (6 * π / 180)⟩ := by
    rw [hTdef, getD_append_ge _ _ (by rw [arc_turn_length]; norm_num)]
    simp only [arc_turn_length]
    rw [show (1010 - 1 - 10 : ℕ) = 999 from rfl, approach2_traj999]
  rw [hval] at hlast
  have hcontra := h _ hlast
  rw [show ((⟨0, 10, 0.5 - Real.tan (6 * π / 180)⟩ : Vec3) - ⟨0, 10, 0.5⟩) =
      ⟨0, 0, -Real.tan (6 * π / 180)⟩ from by
    rw [Vec3.mk_sub3]; norm_num] at hcontra
  rw [Vec3.norm_00z, abs_neg, abs_of_pos tan_six_deg_pos] at hcontra
  have := tan_six_deg_gt
  norm_num at hcontra
  linarith

/-- C4 (code bug witnessed at a concrete input). In tangent-arc mode with a
descending approach, the per-sample speed delivered with the trajectory ends at the
cruise speed 250 km/h at the FAF, although the aircraft-type approach speed — which
the code's own docstring says is the speed to reach at the FAF — is 180 km/h: the
deceleration cosine is reversed, so the profile drops to 180 at 33% of the approach
and climbs back to 250 at the FAF. -/
theorem C4_speed_at_faf :
    (returned_params (calculate_trajectory_with_turn env_turn2 ac_turn [])).map
        (fun p => p.speed.getLast?) = some (some 250) ∧
      ac_turn.get_approach_speed = 180 ∧ (250 : ℝ) ≠ 180 := by
  refine ⟨?_, rfl, by norm_num⟩
  rw [env_turn2_eq, turn_result_eq]
  simp only [returned_params, Option.map_some, Option.map_some']
  refine congrArg some ?_
  unfold calculate_parameters_with_speed_profile
  simp only []
  set T := create_arc_trajectory ⟨0, 0⟩ ⟨ac_turn.calculate_min_turn_radius, 0⟩ 0
      ac_turn.calculate_min_turn_radius 1 ++
      (calculate_approach_with_descent_and_speed ac_turn ⟨0, 0, 1⟩ ⟨0, 10, 0.5⟩ ⟨0, 1⟩
        180).1 with hTdef
  have hlenT : T.length = 1010 := by
    rw [hTdef, List.length_append, arc_turn_length, approach2_len1]
  rw [arc_turn_length, hlenT]
  have hne : (List.map (full_speed_profile 10 250
      (calculate_approach_with_descent_and_speed ac_turn ⟨0, 0, 1⟩ ⟨0, 10, 0.5⟩ ⟨0, 1⟩
        180).2) (List.range 1010)) ≠ [] := by
    intro hc
    have := congrArg List.length hc
    simp at this
  rw [getLast?_eq_getD hne 0, List.length_map, List.length_range]
  rw [show (1010 - 1 : ℕ) = 1009 from rfl]
  rw [List.getD_range_map _ (show (1009 : ℕ) < 1010 by norm_num)]
  unfold full_speed_profile
  rw [if_neg (show ¬(1009 : ℕ) < 10 by norm_num)]
  rw [show (1009 - 10 : ℕ) = 999 from rfl, approach2_speed999]

/-! ### Structural properties of the validation / retry controller -/

lemma has_trajectory_collision_nil (traj : List Vec3) :
    ¬ has_trajectory_collision traj [] := by
  simp [has_trajectory_collision]

/-- The emergency pass errors out on any non-empty obstacle list (missing 'center'
key), and with no obstacles its vacuous collision check passes; either way a
trajectory it delivers passes the collision check. -/
lemma emergency_collision_free (s f : Vec3) (cyls : List Cylinder) (t : List Vec3)
    (h : calculate_emergency_avoidance_trajectory s f cyls = .ok (some t)) :
    ¬ has_trajectory_collision t cyls := by
  cases cyls with
  | nil => exact has_trajectory_collision_nil t
  | cons c cs => exact absurd h (by simp [calculate_emergency_avoidance_trajectory])

lemma emergency_error_of_ne_nil (s f : Vec3) (c : Cylinder) (cs : List Cylinder) :
    calculate_emergency_avoidance_trajectory s f (c :: cs) = .error .keyError := rfl

/-- Any trajectory delivered by the retry ladder passes the collision check, provided
any trajectory delivered by the fallback does. -/
lemma retry_attempts_collision_free (rebuild : ℝ → List Vec3) (cyls : List Cylinder)
    (emer : Except PyErr (Option (List Vec3)))
    (hemer : ∀ t, emer = .ok (some t) → ¬ has_trajectory_collision t cyls) :
    ∀ l t, retry_attempts rebuild cyls emer l = .ok (some t) →
      ¬ has_trajectory_collision t cyls := by
  intro l
  induction l with
  | nil => exact hemer
  | cons a rest ih =>
    intro t h
    unfold retry_attempts at h
    by_cases hcol : has_trajectory_collision (rebuild (2.0 + (a : ℝ) * 0.5)) cyls
    · rw [if_pos hcol] at h
      exact ih t h
    · rw [if_neg hcol] at h
      obtain rfl : rebuild (2.0 + (a : ℝ) * 0.5) = t := by
        injection h with h1
        injection h1
      exact hcol

/-- Any trajectory delivered by the retry ladder is one of the rebuilds, or came from
the fallback. -/
lemma retry_attempts_shape (rebuild : ℝ → List Vec3) (cyls : List Cylinder)
    (emer : Except PyErr (Option (List Vec3))) :
    ∀ l t, retry_attempts rebuild cyls emer l = .ok (some t) →
      (∃ m, t = rebuild m) ∨ emer = .ok (some t) := by
  intro l
  induction l with
  | nil => exact fun t h => Or.inr h
  | cons a rest ih =>
    intro t h
    unfold retry_attempts at h
    by_cases hcol : has_trajectory_collision (rebuild (2.0 + (a : ℝ) * 0.5)) cyls
    · rw [if_pos hcol] at h
      exact ih t h
    · rw [if_neg hcol] at h
      refine Or.inl ⟨2.0 + (a : ℝ) * 0.5, ?_⟩
      injection h with h1
      injection h1 with h2
      exact h2.symm

/-- If every rebuild of the ladder still collides, the controller falls through to the
emergency branch. -/
lemma retry_attempts_all_fail (rebuild : ℝ → List Vec3) (cyls : List Cylinder)
    (emer : Except PyErr (Option (List Vec3)))
    (h : ∀ a : ℕ, has_trajectory_collision (rebuild (2.0 + (a : ℝ) * 0.5)) cyls) :
    ∀ l, retry_attempts rebuild cyls emer l = emer := by
  intro l
  induction l with
  | nil => rfl
  | cons a rest ih =>
    unfold retry_attempts
    rw [if_pos (h a)]
    exact ih

/-- Lift retry-ladder safety through the final packaging of the builder. -/
lemma result_collision_free_match (cyls : List Cylinder)
    (r : Except PyErr (Option (List Vec3))) (f : List Vec3 → List Vec3 × FlightParams)
    (hf : ∀ t, (f t).1 = t)
    (h : ∀ t, r = .ok (some t) → ¬ has_trajectory_collision t cyls) :
    result_collision_free cyls (r.map (Option.map f)) := by
  match r with
  | .error e => exact trivial
  | .ok none => exact trivial
  | .ok (some t) =>
    show ¬ has_trajectory_collision (f t).1 cyls
    rw [hf t]
    exact h t rfl

/-- C1 (amended). Every trajectory delivered by
`_build_trajectory_with_runway_alignment` passes the source's per-sample collision
check against the supplied obstacle list: for every sample `p` and obstacle `c`,
NOT (horizontal distance ≤ radius AND 0 ≤ altitude ≤ height).  (With an empty
obstacle list the check is vacuous; the claim's original "any mode" version fails in
tangent-arc mode, which validates nothing — see the counterexample.) -/
theorem C1_progressive_collision_free (aircraft : Aircraft) (start_pos : Vec3)
    (intercept_point : Vec2) (faf_pos : Vec3) (current_dir runway_dir : Vec2)
    (cylinders : List Cylinder) :
    result_collision_free cylinders
      (build_trajectory_with_runway_alignment aircraft start_pos intercept_point faf_pos
        current_dir runway_dir cylinders) := by
  unfold build_trajectory_with_runway_alignment
  simp only []
  split_ifs with hc hcol
  · subst hc
    exact has_trajectory_collision_nil _
  · exact result_collision_free_match cylinders _ _ (fun t => rfl)
      (fun t => retry_attempts_collision_free _ cylinders _
        (emergency_collision_free start_pos faf_pos cylinders) (List.range 5) t)
  · exact hcol

/-! ### Endpoint preservation in the progressive builder -/

lemma getD_default_irrel {α : Type*} {l : List α} {i : ℕ} (h : i < l.length)
    (d d' : α) : l.getD i d = l.getD i d' := by
  rw [List.getD_eq_getElem l d h, List.getD_eq_getElem l d' h]

lemma smooth_final_length (traj : List Vec3) (f : Vec3) :
    (smooth_final traj f).length = traj.length := by
  unfold smooth_final
  simp

lemma set_last_to_length (l : List Vec3) (p : Vec3) :
    (set_last_to l p).length = l.length := by
  unfold set_last_to
  simp

lemma head?_append_left {α : Type*} (l₁ l₂ : List α) (h : l₁ ≠ []) :
    (l₁ ++ l₂).head? = l₁.head? := by
  cases l₁ with
  | nil => exact absurd rfl h
  | cons a t => rfl

lemma smooth_final_getD_low (traj : List Vec3) (f : Vec3) {idx : ℕ}
    (h : idx < traj.length - min 100 (traj.length / 20)) :
    (smooth_final traj f).getD idx ⟨0, 0, 0⟩ = traj.getD idx ⟨0, 0, 0⟩ := by
  unfold smooth_final
  rw [List.getD_range_map _ (lt_of_lt_of_le h (Nat.sub_le _ _))]
  rw [if_neg (by omega)]

lemma set_last_getD_low (l : List Vec3) (p : Vec3) {idx : ℕ} (h : idx < l.length - 1)
    (d : Vec3) : (set_last_to l p).getD idx d = l.getD idx d := by
  unfold set_last_to
  rw [List.getD_eq_getElem?_getD, List.getD_eq_getElem?_getD,
    List.getElem?_set_ne (by omega)]

lemma set_last_getLast? (l : List Vec3) (p : Vec3) (h : l ≠ []) :
    (set_last_to l p).getLast? = some p := by
  have hlen : 0 < l.length := List.length_pos.mpr h
  have hne : set_last_to l p ≠ [] := by
    intro hc
    have h0 : (set_last_to l p).length = 0 := by rw [hc]; rfl
    rw [set_last_to_length] at h0
    omega
  rw [getLast?_eq_getD hne p, set_last_to_length]
  unfold set_last_to
  have hlt : l.length - 1 < (l.set (l.length - 1) p).length := by simp; omega
  rw [List.getD_eq_getElem _ p hlt, List.getElem_set_self]

lemma head?_of_getD {α : Type*} {l : List α} (h : 0 < l.length) (d : α) :
    l.head? = some (l.getD 0 d) := by
  rw [List.head?_eq_getElem?, List.getElem?_eq_getElem h, List.getD_eq_getElem l d h]

lemma ns_lt_length {n : ℕ} (h : 0 < n) : min 100 (n / 20) < n :=
  lt_of_le_of_lt (min_le_right _ _) (Nat.div_lt_self h (by norm_num))

lemma smooth_final_head (traj : List Vec3) (f : Vec3) (h : 0 < traj.length) :
    (smooth_final traj f).head? = traj.head? := by
  have hlen : 0 < (smooth_final traj f).length := by rwa [smooth_final_length]
  rw [head?_of_getD hlen ⟨0, 0, 0⟩, head?_of_getD h ⟨0, 0, 0⟩,
    smooth_final_getD_low traj f (by have := ns_lt_length h; omega)]

/-- Both endpoint facts for a candidate of the form `set_last_to Y faf`. -/
lemma set_last_endpoints (Y : List Vec3) (faf start_pos : Vec3) (h2 : 2 ≤ Y.length)
    (hhead : Y.head? = some start_pos) :
    (set_last_to Y faf).head? = some start_pos ∧
      (set_last_to Y faf).getLast? = some faf := by
  have hne : Y ≠ [] := by
    intro hc
    rw [hc] at h2
    simp at h2
  constructor
  · have hlen0 : 0 < (set_last_to Y faf).length := by rw [set_last_to_length]; omega
    rw [head?_of_getD (show 0 < Y.length by omega) (⟨0, 0, 0⟩ : Vec3)] at hhead
    rw [head?_of_getD hlen0 ⟨0, 0, 0⟩, set_last_getD_low Y faf (by omega)]
    exact hhead
  · exact set_last_getLast? Y faf hne

lemma initial_segment_ne_nil (s : Vec3) (cd : Vec2) (dist : ℝ) :
    initial_segment_list s cd dist ≠ [] := by
  unfold initial_segment_list
  intro h
  have := congrArg List.length h
  simp at this

lemma initial_segment_head (s : Vec3) (cd : Vec2) (dist : ℝ) :
    (initial_segment_list s cd dist).head? = some s := by
  unfold initial_segment_list
  rw [List.head?_eq_getElem?, List.getElem?_map,
    List.getElem?_range (Nat.lt_of_lt_of_le (by norm_num) (Nat.le_max_left 50 _))]
  simp only [Option.map_some, Option.map_some']
  congr 1
  ext <;> simp

lemma except_map_ok_some {f : List Vec3 → List Vec3 × FlightParams}
    {r : Except PyErr (Option (List Vec3))} {tp : List Vec3 × FlightParams}
    (h : r.map (Option.map f) = .ok (some tp)) : ∃ t, r = .ok (some t) ∧ tp = f t := by
  match r with
  | .error e => simp [Except.map] at h
  | .ok none => simp [Except.map, Option.map] at h
  | .ok (some t) =>
    refine ⟨t, rfl, ?_⟩
    simp only [Except.map, Option.map] at h
    injection h with h1
    injection h1 with h2
    exact h2.symm

/-- Head and minimum length of `initial_segment ++ chain` candidates. -/
lemma assembled_head (start_pos : Vec3) (cd : Vec2) (dist : ℝ) (chain : List Vec3) :
    (initial_segment_list start_pos cd dist ++ chain).head? = some start_pos := by
  rw [head?_append_left _ _ (initial_segment_ne_nil _ _ _)]
  exact initial_segment_head _ _ _

lemma assembled_len (start_pos : Vec3) (cd : Vec2) (dist : ℝ) (chain : List Vec3) :
    50 ≤ (initial_segment_list start_pos cd dist ++ chain).length := by
  rw [List.length_append]
  have h1 : 50 ≤ (initial_segment_list start_pos cd dist).length := by
    unfold initial_segment_list
    simp [Nat.le_max_left]
  omega

lemma smoothed_candidate_endpoints (traj0 : List Vec3) (faf start_pos : Vec3)
    (h2 : 2 ≤ traj0.length) (hhead : traj0.head? = some start_pos) :
    (set_last_to (smooth_final traj0 faf) faf).head? = some start_pos ∧
      (set_last_to (smooth_final traj0 faf) faf).getLast? = some faf := by
  apply set_last_endpoints
  · rw [smooth_final_length]
    exact h2
  · rw [smooth_final_head _ _ (by omega)]
    exact hhead

/-- C3 (amended). Every trajectory delivered by
`_build_trajectory_with_runway_alignment` starts exactly at the aircraft position and
ends exactly at the FAF position (the source overwrites the final sample with
`faf_pos`), hence in particular within the claimed `1e-6` km.  The tangent-arc mode
does not share this guarantee — see the counterexample. -/
theorem C3_build_endpoints (aircraft : Aircraft) (start_pos : Vec3)
    (intercept_point : Vec2) (faf_pos : Vec3) (current_dir runway_dir : Vec2)
    (cylinders : List Cylinder) (t : List Vec3) (p : FlightParams)
    (h : build_trajectory_with_runway_alignment aircraft start_pos intercept_point
      faf_pos current_dir runway_dir cylinders = .ok (some (t, p))) :
    t.head? = some start_pos ∧ t.getLast? = some faf_pos := by
  unfold build_trajectory_with_runway_alignment at h
  simp only [] at h
  split_ifs at h with hc hcol
  · obtain ⟨t0, hr, htp⟩ := except_map_ok_some h
    have hcd : t = t0 := by simpa using congrArg Prod.fst htp
    have ht0 : t0 = set_last_to (smooth_final (initial_segment_list start_pos current_dir
        (np_clip ((faf_pos.xy - start_pos.xy).norm * 0.20) 1.0 5.0) ++
          bezier_chain ([start_pos.xy + np_clip ((faf_pos.xy - start_pos.xy).norm * 0.20)
              1.0 5.0 • current_dir] ++ [] ++ [faf_pos.xy]) current_dir runway_dir
            start_pos.z faf_pos.z
            (descent_phase_lengths
              (|(faf_pos.z - start_pos.z) / Real.tan (|radians aircraft.max_descent_slope|)|)
              (max (min ((|(faf_pos.z - start_pos.z) /
                  Real.tan (|radians aircraft.max_descent_slope|)|) * 0.50) 12.0) 3.0)
              ((faf_pos.xy - start_pos.xy).norm)).1
            (descent_phase_lengths
              (|(faf_pos.z - start_pos.z) / Real.tan (|radians aircraft.max_descent_slope|)|)
              (max (min ((|(faf_pos.z - start_pos.z) /
                  Real.tan (|radians aircraft.max_descent_slope|)|) * 0.50) 12.0) 3.0)
              ((faf_pos.xy - start_pos.xy).norm)).2
            (|Real.tan (radians aircraft.max_descent_slope)|)) faf_pos) faf_pos := by
      injection hr with hr1
      injection hr1 with hr2
      exact hr2.symm
    rw [hcd, ht0]
    exact smoothed_candidate_endpoints _ _ _
      (le_trans (by norm_num) (assembled_len _ _ _ _)) (assembled_head _ _ _ _)
  · obtain ⟨t0, hr, htp⟩ := except_map_ok_some h
    have hcd : t = t0 := by simpa using congrArg Prod.fst htp
    rcases retry_attempts_shape _ _ _ _ _ hr with ⟨m, hm⟩ | hemer
    · rw [hcd, hm]
      exact set_last_endpoints _ _ _
        (le_trans (by norm_num) (assembled_len _ _ _ _)) (assembled_head _ _ _ _)
    · cases hcyl : cylinders with
      | nil => exact absurd hcyl hc
      | cons c cs =>
        rw [hcyl] at hemer
        exact absurd hemer (by simp [calculate_emergency_avoidance_trajectory])
  · obtain ⟨t0, hr, htp⟩ := except_map_ok_some h
    have hcd : t = t0 := by simpa using congrArg Prod.fst htp
    have ht0 : t0 = set_last_to (smooth_final (initial_segment_list start_pos current_dir
        (np_clip ((faf_pos.xy - start_pos.xy).norm * 0.20) 1.0 5.0) ++
          bezier_chain ([start_pos.xy + np_clip ((faf_pos.xy - start_pos.xy).norm * 0.20)
              1.0 5.0 • current_dir] ++ calculate_avoidance_waypoints
                (start_pos.xy + np_clip ((faf_pos.xy - start_pos.xy).norm * 0.20)
                  1.0 5.0 • current_dir) faf_pos.xy cylinders start_pos.z ++ [faf_pos.xy])
            current_dir runway_dir start_pos.z faf_pos.z
            (descent_phase_lengths
              (|(faf_pos.z - start_pos.z) / Real.tan (|radians aircraft.max_descent_slope|)|)
              (max (min ((|(faf_pos.z - start_pos.z) /
                  Real.tan (|radians aircraft.max_descent_slope|)|) * 0.50) 12.0) 3.0)
              ((faf_pos.xy - start_pos.xy).norm)).1
            (descent_phase_lengths
              (|(faf_pos.z - start_pos.z) / Real.tan (|radians aircraft.max_descent_slope|)|)
              (max (min ((|(faf_pos.z - start_pos.z) /
                  Real.tan (|radians aircraft.max_descent_slope|)|) * 0.50) 12.0) 3.0)
              ((faf_pos.xy - start_pos.xy).norm)).2
            (|Real.tan (radians aircraft.max_descent_slope)|)) faf_pos) faf_pos := by
      injection hr with hr1
      injection hr1 with hr2
      exact hr2.symm
    rw [hcd, ht0]
    exact smoothed_candidate_endpoints _ _ _
      (le_trans (by norm_num) (assembled_len _ _ _ _)) (assembled_head _ _ _ _)

/-! ### C7, C9, C10 -/

/-- C7. The progressive-mode interception point is exactly the spec's formula:
`runway_length - 0.5` along the axis, or
`min(projection + max(2*perp, 0.1*angle, 3), 0.95*runway_length)` when the
aircraft projects below 30% of the runway length. -/
theorem C7_intercept_matches_spec (s cd a f rd : Vec2) (ang : ℝ) :
    calculate_runway_intercept_point s cd a f rd ang =
      spec_intercept_point s a f rd ang := by
  simp only [calculate_runway_intercept_point, spec_intercept_point]
  have hm : ∀ P : ℝ, P * 2 = 2 * P := fun P => mul_comm P 2
  rw [hm, mul_comm ang 0.1]
  split_ifs with hP <;> rfl

lemma flatMap_congr {α β : Type*} (l : List α) (f g : α → List β)
    (h : ∀ a ∈ l, f a = g a) : l.flatMap f = l.flatMap g := by
  induction l with
  | nil => rfl
  | cons a t ih =>
    simp only [List.flatMap_cons]
    rw [h a (List.mem_cons_self a t), ih (fun x hx => h x (List.mem_cons_of_mem a hx))]

/-- C9. The first planning attempt computes its detour waypoints with the fixed
safety margin 0.5 km: the first-attempt routine coincides with the
margin-parameterised retry routine applied at margin 0.5 (for obstacles whose
effective radius makes the common 1 km approach floor non-binding); the ladder
margins 2.0+ enter only through `retry_attempts`. -/
theorem C9_first_attempt_margin (s e : Vec2) (cylinders : List Cylinder)
    (altitude : ℝ) (h : ∀ c ∈ cylinders, 1.0 ≤ (c.radius + 0.5) * 0.8) :
    calculate_avoidance_waypoints s e cylinders altitude =
      calculate_avoidance_waypoints_with_margin s e cylinders altitude 0.5 := by
  simp only [calculate_avoidance_waypoints, calculate_avoidance_waypoints_with_margin]
  split_ifs with hd
  · rfl
  · refine flatMap_congr _ _ _ (fun c hc => ?_)
    have h8 := h c hc
    rw [max_eq_left h8, max_eq_left (le_trans (by norm_num) h8)]

theorem C9_margin_witness :
    calculate_avoidance_waypoints ⟨0, 0⟩ ⟨10, 0⟩ [⟨0, 0, 1, 5⟩] 1 =
      calculate_avoidance_waypoints_with_margin ⟨0, 0⟩ ⟨10, 0⟩ [⟨0, 0, 1, 5⟩] 1 0.5 :=
  C9_first_attempt_margin ⟨0, 0⟩ ⟨10, 0⟩ [⟨0, 0, 1, 5⟩] 1 (by
    intro c hc
    rw [List.mem_singleton] at hc
    subst hc
    show (1.0 : ℝ) ≤ (1 + 0.5) * 0.8
    norm_num)

/-- C10. A type string other than light/cargo (in particular any unknown string)
selects the commercial specification table, and the planning limits derived from
it are max climb slope 10°, max descent slope −6°, max bank angle 25°. -/
theorem C10_unknown_type_defaults (s : String) (pos : Vec3) (v hd : ℝ)
    (h1 : s ≠ "light") (h2 : s ≠ "cargo") :
    get_specifications s = commercial_specs ∧
      (Aircraft.mk pos v hd s).max_climb_slope = 10 ∧
      (Aircraft.mk pos v hd s).max_descent_slope = -6 ∧
      (Aircraft.mk pos v hd s).max_bank_angle = 25 := by
  have hg : get_specifications s = commercial_specs := by
    unfold get_specifications
    by_cases hcomm : s = "commercial"
    · rw [if_neg h1, if_pos hcomm]
    · rw [if_neg h1, if_neg hcomm, if_neg h2]
  refine ⟨hg, ?_, ?_, ?_⟩ <;>
    simp [Aircraft.max_climb_slope, Aircraft.max_descent_slope, Aircraft.max_bank_angle,
      Aircraft.specs, hg, commercial_specs]

theorem C10_default_witness :
    get_specifications "jumbo" = commercial_specs ∧
      (Aircraft.mk ⟨0, 0, 0⟩ 100 0 "jumbo").max_climb_slope = 10 ∧
      (Aircraft.mk ⟨0, 0, 0⟩ 100 0 "jumbo").max_descent_slope = -6 ∧
      (Aircraft.mk ⟨0, 0, 0⟩ 100 0 "jumbo").max_bank_angle = 25 :=
  C10_unknown_type_defaults "jumbo" ⟨0, 0, 0⟩ 100 0 (by decide) (by decide)

/-! ### C8 and C5 amended laws -/

/-- C8 (amended). The cumulative arc-length series computed by the parameter
derivations is monotone non-decreasing (each step adds a non-negative Euclidean
delta); it is not strictly increasing — see the counterexample at a segment joint. -/
theorem C8_running_distance_monotone (traj : List Vec3) (i j : ℕ) (h : i ≤ j) :
    running_distance traj i ≤ running_distance traj j := by
  induction j with
  | zero =>
    rw [Nat.le_zero.mp h]
  | succ j ih =>
    rcases Nat.lt_or_ge i (j + 1) with hij | hij
    · refine le_trans (ih (Nat.lt_succ_iff.mp hij)) ?_
      rw [running_distance]
      have hn : 0 ≤ (traj.getD (j + 1) ⟨0, 0, 0⟩ - traj.getD j ⟨0, 0, 0⟩).norm :=
        Real.sqrt_nonneg _
      linarith
    · rw [Nat.le_antisymm h hij]

theorem C8_monotone_witness :
    running_distance [(⟨0, 0, 0⟩ : Vec3), ⟨1, 0, 0⟩] 0 ≤
      running_distance [(⟨0, 0, 0⟩ : Vec3), ⟨1, 0, 0⟩] 1 :=
  C8_running_distance_monotone [⟨0, 0, 0⟩, ⟨1, 0, 0⟩] 0 1 (by norm_num)

/-- C5 (amended). The cumulative distance series is indeed the running sum of
consecutive Euclidean deltas, and the claimed time law
`Δt = Δdistance / average speed` holds for the variable-speed derivation
`_calculate_parameters_with_speed_profile` (whenever the average speed is
positive); the constant-speed derivation `_calculate_parameters` instead uses a
uniform `linspace` time grid — see the counterexample. -/
theorem C5_time_and_distance_laws :
    (∀ (traj : List Vec3) (i : ℕ),
      running_distance traj (i + 1) = running_distance traj i +
        (traj.getD (i + 1) ⟨0, 0, 0⟩ - traj.getD i ⟨0, 0, 0⟩).norm) ∧
    (∀ (traj : List Vec3) (sp : ℕ → ℝ) (i : ℕ), 0 < (sp (i + 1) + sp i) / 2 →
      profile_time traj sp (i + 1) - profile_time traj sp i =
        (traj.getD (i + 1) ⟨0, 0, 0⟩ - traj.getD i ⟨0, 0, 0⟩).norm /
          ((sp (i + 1) + sp i) / 2) * 3600) := by
  constructor
  · intro traj i
    rw [running_distance]
  · intro traj sp i havg
    simp only [profile_time]
    rw [if_pos havg]
    ring

theorem C5_laws_witness :
    (running_distance [(⟨0, 0, 0⟩ : Vec3), ⟨1, 0, 0⟩] 1 =
      running_distance [(⟨0, 0, 0⟩ : Vec3), ⟨1, 0, 0⟩] 0 +
        (([(⟨0, 0, 0⟩ : Vec3), ⟨1, 0, 0⟩].getD 1 ⟨0, 0, 0⟩ -
          [(⟨0, 0, 0⟩ : Vec3), ⟨1, 0, 0⟩].getD 0 ⟨0, 0, 0⟩)).norm) ∧
    (profile_time [(⟨0, 0, 0⟩ : Vec3), ⟨1, 0, 0⟩] (fun _ => 10) 1 -
      profile_time [(⟨0, 0, 0⟩ : Vec3), ⟨1, 0, 0⟩] (fun _ => 10) 0 =
        (([(⟨0, 0, 0⟩ : Vec3), ⟨1, 0, 0⟩].getD 1 ⟨0, 0, 0⟩ -
          [(⟨0, 0, 0⟩ : Vec3), ⟨1, 0, 0⟩].getD 0 ⟨0, 0, 0⟩)).norm /
          (((fun _ : ℕ => (10 : ℝ)) 1 + (fun _ : ℕ => (10 : ℝ)) 0) / 2) * 3600) :=
  ⟨C5_time_and_distance_laws.1 [⟨0, 0, 0⟩, ⟨1, 0, 0⟩] 0,
   C5_time_and_distance_laws.2 [⟨0, 0, 0⟩, ⟨1, 0, 0⟩] (fun _ => 10) 0 (by norm_num)⟩

/-! ### C2: the retry ladder and its exhaustion -/

/-- C2 (amended). When the rebuilds at the five ladder margins
`2.0, 2.5, 3.0, 3.5, 4.0` all still collide, the retry loop falls through to the
emergency path, which — for a non-empty obstacle list — raises `KeyError`
(reading the absent `'center'` key) instead of returning the documented
no-trajectory result. -/
theorem C2_retry_exhaustion (rebuild : ℝ → List Vec3) (c : Cylinder)
    (cs : List Cylinder) (start_pos faf_pos : Vec3)
    (h0 : has_trajectory_collision (rebuild 2.0) (c :: cs))
    (h1 : has_trajectory_collision (rebuild 2.5) (c :: cs))
    (h2 : has_trajectory_collision (rebuild 3.0) (c :: cs))
    (h3 : has_trajectory_collision (rebuild 3.5) (c :: cs))
    (h4 : has_trajectory_collision (rebuild 4.0) (c :: cs)) :
    retry_attempts rebuild (c :: cs)
      (calculate_emergency_avoidance_trajectory start_pos faf_pos (c :: cs))
      (List.range 5) = .error .keyError := by
  have e0 : (2.0 + ((0 : ℕ) : ℝ) * 0.5) = 2.0 := by norm_num
  have e1 : (2.0 + ((1 : ℕ) : ℝ) * 0.5) = 2.5 := by norm_num
  have e2 : (2.0 + ((2 : ℕ) : ℝ) * 0.5) = 3.0 := by norm_num
  have e3 : (2.0 + ((3 : ℕ) : ℝ) * 0.5) = 3.5 := by norm_num
  have e4 : (2.0 + ((4 : ℕ) : ℝ) * 0.5) = 4.0 := by norm_num
  rw [show List.range 5 = [0, 1, 2, 3, 4] from rfl]
  rw [retry_attempts]
  simp only [e0]
  rw [if_pos h0, retry_attempts]
  simp only [e1]
  rw [if_pos h1, retry_attempts]
  simp only [e2]
  rw [if_pos h2, retry_attempts]
  simp only [e3]
  rw [if_pos h3, retry_attempts]
  simp only [e4]
  rw [if_pos h4, retry_attempts]
  exact emergency_error_of_ne_nil start_pos faf_pos c cs

theorem C2_exhaustion_witness :
    retry_attempts (fun _ => [⟨0, 0, 1⟩]) [cyl_big]
      (calculate_emergency_avoidance_trajectory ⟨0, 0, 1⟩ ⟨0, 20, 0.5⟩ [cyl_big])
      (List.range 5) = .error .keyError := by
  have hcol : has_trajectory_collision [(⟨0, 0, 1⟩ : Vec3)] [cyl_big] := by
    refine ⟨⟨0, 0, 1⟩, List.mem_singleton_self _, cyl_big, List.mem_singleton_self _, ?_⟩
    unfold check_collision_with_cylinder cyl_big
    refine ⟨?_, by norm_num, by norm_num⟩
    rw [show ((0 : ℝ) - 0) ^ 2 + ((0 : ℝ) - 0) ^ 2 = 0 by norm_num, Real.sqrt_zero]
    norm_num
  exact C2_retry_exhaustion (fun _ => [⟨0, 0, 1⟩]) cyl_big [] ⟨0, 0, 1⟩ ⟨0, 20, 0.5⟩
    hcol hcol hcol hcol hcol

/-! ### C6: detour-waypoint placement -/

@[simp] lemma Cylinder.mk_xc (a b r h : ℝ) : (Cylinder.mk a b r h).x = a := rfl

@[simp] lemma Cylinder.mk_yc (a b r h : ℝ) : (Cylinder.mk a b r h).y = b := rfl

@[simp] lemma Cylinder.mk_radius (a b r h : ℝ) : (Cylinder.mk a b r h).radius = r := rfl

@[simp] lemma Cylinder.mk_height (a b r h : ℝ) : (Cylinder.mk a b r h).height = h := rfl

/-- C6 (amended). For a single conflicting obstacle (positive projection inside the
segment, perpendicular distance below the effective radius, obstacle tall enough),
and provided the entry/exit bases `projection ∓ approach_distance` fall inside the
segment, the source's detour waypoints are exactly the spec's: the source
additionally clamps the bases to the segment (`max 0 …` / `min traj_dist …`), which
the claim omits — see the counterexample. -/
theorem C6_detour_no_clamp (s e : Vec2) (c : Cylinder) (alt : ℝ)
    (hdist : ¬ traj_dist_of s e < 0.01)
    (halt : ¬ alt > c.height + 0.5)
    (hproj : ¬ (proj_length_of s e c < 0 ∨ proj_length_of s e c > traj_dist_of s e))
    (hconf : dist_to_segment_of s e c < c.radius + 0.5)
    (hlo : 0 ≤ proj_length_of s e c - approach_distance_of c)
    (hhi : proj_length_of s e c + approach_distance_of c ≤ traj_dist_of s e) :
    calculate_avoidance_waypoints s e [c] alt = spec_detour_waypoints s e c 0.5 := by
  unfold traj_dist_of at hdist hproj hhi
  unfold dist_to_segment_of at hconf
  unfold approach_distance_of at hlo hhi
  unfold proj_length_of at hproj hconf hlo hhi
  unfold traj_dir_of at hproj hconf hlo hhi
  simp only [calculate_avoidance_waypoints, spec_detour_waypoints]
  rw [if_neg hdist]
  simp only [List.flatMap_cons, List.flatMap_nil, List.append_nil]
  rw [if_neg halt, if_neg hproj, if_pos hconf, max_eq_right hlo, min_eq_right hhi]

lemma c6w_dist : traj_dist_of ⟨0, 0⟩ ⟨10, 0⟩ = 10 := by
  unfold traj_dist_of
  rw [show ((⟨10, 0⟩ : Vec2) - ⟨0, 0⟩) = ⟨10, 0⟩ from by ext <;> norm_num]
  rw [Vec2.norm_x0]
  norm_num

lemma c6w_dir : traj_dir_of ⟨0, 0⟩ ⟨10, 0⟩ = ⟨1, 0⟩ := by
  unfold traj_dir_of
  rw [show ((⟨10, 0⟩ : Vec2) - ⟨0, 0⟩) = ⟨10, 0⟩ from by ext <;> norm_num]
  rw [Vec2.norm_x0]
  ext <;> simp <;> norm_num

lemma c6w_proj : proj_length_of ⟨0, 0⟩ ⟨10, 0⟩ ⟨5, 0.1, 1, 5⟩ = 5 := by
  unfold proj_length_of
  rw [c6w_dir]
  show ((⟨5, 0.1⟩ : Vec2) - ⟨0, 0⟩).dot ⟨1, 0⟩ = 5
  rw [show ((⟨5, 0.1⟩ : Vec2) - ⟨0, 0⟩) = ⟨5, 0.1⟩ from by ext <;> norm_num, Vec2.dot_mk]
  norm_num

lemma c6w_dseg : dist_to_segment_of ⟨0, 0⟩ ⟨10, 0⟩ ⟨5, 0.1, 1, 5⟩ = 0.1 := by
  unfold dist_to_segment_of
  rw [c6w_dir, c6w_proj]
  show ((⟨5, 0.1⟩ : Vec2) - (⟨0, 0⟩ + (5 : ℝ) • ⟨1, 0⟩)).norm = 0.1
  rw [show ((⟨5, 0.1⟩ : Vec2) - (⟨0, 0⟩ + (5 : ℝ) • ⟨1, 0⟩)) = ⟨0, 0.1⟩ from by
    ext <;> simp <;> norm_num]
  rw [Vec2.norm_0y]
  norm_num

lemma c6w_app : approach_distance_of ⟨5, 0.1, 1, 5⟩ = 1.2 := by
  unfold approach_distance_of
  show max (((1 : ℝ) + 0.5) * 0.8) 1.0 = 1.2
  rw [max_eq_left (by norm_num)]
  norm_num

theorem C6_no_clamp_witness :
    calculate_avoidance_waypoints ⟨0, 0⟩ ⟨10, 0⟩ [⟨5, 0.1, 1, 5⟩] 1 =
      spec_detour_waypoints ⟨0, 0⟩ ⟨10, 0⟩ ⟨5, 0.1, 1, 5⟩ 0.5 :=
  C6_detour_no_clamp ⟨0, 0⟩ ⟨10, 0⟩ ⟨5, 0.1, 1, 5⟩ 1
    (by rw [c6w_dist]; norm_num)
    (by show ¬ (1 : ℝ) > 5 + 0.5; norm_num)
    (by rw [c6w_proj, c6w_dist]; push_neg; constructor <;> norm_num)
    (by rw [c6w_dseg]; show (0.1 : ℝ) < 1 + 0.5; norm_num)
    (by rw [c6w_proj, c6w_app]; norm_num)
    (by rw [c6w_proj, c6w_app, c6w_dist]; norm_num)

lemma sqrt_ge_of_sq {a b : ℝ} (ha : 0 ≤ a) (h : a ^ 2 ≤ b) : a ≤ Real.sqrt b := by
  nlinarith [Real.sq_sqrt (le_trans (by positivity) h), Real.sqrt_nonneg b]

lemma c6_code_eval :
    calculate_avoidance_waypoints ⟨0, 0⟩ ⟨10, 0⟩ [⟨1, 0.1, 1, 5⟩] 1 =
      [⟨0, -1.4⟩, ⟨2.2, -1.4⟩] := by
  simp only [calculate_avoidance_waypoints]
  rw [show ((⟨10, 0⟩ : Vec2) - ⟨0, 0⟩) = ⟨10, 0⟩ from by ext <;> norm_num]
  rw [show Vec2.norm ⟨10, 0⟩ = 10 from by rw [Vec2.norm_x0]; norm_num]
  rw [if_neg (by norm_num : ¬ (10 : ℝ) < 0.01)]
  simp only [List.flatMap_cons, List.flatMap_nil, List.append_nil, Cylinder.mk_xc,
    Cylinder.mk_yc, Cylinder.mk_radius, Cylinder.mk_height]
  rw [if_neg (by norm_num : ¬ (1 : ℝ) > 5 + 0.5)]
  rw [show ((1 / (10 : ℝ)) • (⟨10, 0⟩ : Vec2)) = ⟨1, 0⟩ from by ext <;> simp <;> norm_num]
  rw [show ((⟨1, 0.1⟩ : Vec2) - ⟨0, 0⟩) = ⟨1, 0.1⟩ from by ext <;> norm_num]
  rw [show Vec2.dot ⟨1, 0.1⟩ ⟨1, 0⟩ = 1 from by rw [Vec2.dot_mk]; norm_num]
  rw [if_neg (by norm_num : ¬ ((1 : ℝ) < 0 ∨ (1 : ℝ) > 10))]
  rw [show ((⟨0, 0⟩ : Vec2) + (1 : ℝ) • ⟨1, 0⟩) = ⟨1, 0⟩ from by ext <;> simp]
  rw [show ((⟨1, 0.1⟩ : Vec2) - ⟨1, 0⟩) = ⟨0, 0.1⟩ from by ext <;> norm_num]
  rw [show Vec2.norm ⟨0, 0.1⟩ = 0.1 from by rw [Vec2.norm_0y]; norm_num]
  rw [if_pos (by norm_num : (0.1 : ℝ) < 1 + 0.5)]
  simp only [Vec2.mk_x2, Vec2.mk_y2]
  rw [if_neg (by norm_num : ¬ (1 : ℝ) * 0 - 0.1 * 1 > 0)]
  rw [show max (((1 : ℝ) + 0.5) * 0.8) 1.0 = 1.2 from by
    rw [max_eq_left (by norm_num)]; norm_num]
  rw [show max (0 : ℝ) (1 - 1.2) = 0 from max_eq_left (by norm_num)]
  rw [show min (10 : ℝ) (1 + 1.2) = 2.2 from by rw [min_eq_right (by norm_num)]; norm_num]
  rw [show ((⟨0, 0⟩ : Vec2) + (0 : ℝ) • ⟨1, 0⟩) = ⟨0, 0⟩ from by ext <;> simp]
  rw [show ((⟨0, 0⟩ : Vec2) + (2.2 : ℝ) • ⟨1, 0⟩) = ⟨2.2, 0⟩ from by ext <;> simp]
  rw [show ((⟨0, 0⟩ : Vec2) + ((-1 : ℝ) * ((1 - 0.1) + 0.5)) • ⟨-0, 1⟩) = ⟨0, -1.4⟩ from by
    ext <;> simp <;> norm_num]
  rw [show ((⟨2.2, 0⟩ : Vec2) + ((-1 : ℝ) * ((1 - 0.1) + 0.5)) • ⟨-0, 1⟩) = ⟨2.2, -1.4⟩ from by
    ext <;> simp <;> norm_num]
  rw [show ((⟨0, -1.4⟩ : Vec2) - ⟨1, 0.1⟩) = ⟨-1, -1.5⟩ from by ext <;> norm_num]
  rw [show ((⟨2.2, -1.4⟩ : Vec2) - ⟨1, 0.1⟩) = ⟨1.2, -1.5⟩ from by ext <;> norm_num]
  rw [if_neg (show ¬ Vec2.norm ⟨-1, -1.5⟩ < 1 + 0.5 from by
    rw [not_lt]
    unfold Vec2.norm
    simp only [Vec2.mk_x2, Vec2.mk_y2]
    exact sqrt_ge_of_sq (by norm_num) (by norm_num))]
  rw [if_neg (show ¬ Vec2.norm ⟨1.2, -1.5⟩ < 1 + 0.5 from by
    rw [not_lt]
    unfold Vec2.norm
    simp only [Vec2.mk_x2, Vec2.mk_y2]
    exact sqrt_ge_of_sq (by norm_num) (by norm_num))]

lemma c6_spec_eval :
    spec_detour_waypoints ⟨0, 0⟩ ⟨10, 0⟩ ⟨1, 0.1, 1, 5⟩ 0.5 =
      [⟨-0.2, -1.4⟩, ⟨2.2, -1.4⟩] := by
  simp only [spec_detour_waypoints, Cylinder.mk_xc, Cylinder.mk_yc, Cylinder.mk_radius,
    Cylinder.mk_height]
  rw [show ((⟨10, 0⟩ : Vec2) - ⟨0, 0⟩) = ⟨10, 0⟩ from by ext <;> norm_num]
  rw [show Vec2.norm ⟨10, 0⟩ = 10 from by rw [Vec2.norm_x0]; norm_num]
  rw [show ((1 / (10 : ℝ)) • (⟨10, 0⟩ : Vec2)) = ⟨1, 0⟩ from by ext <;> simp <;> norm_num]
  rw [show ((⟨1, 0.1⟩ : Vec2) - ⟨0, 0⟩) = ⟨1, 0.1⟩ from by ext <;> norm_num]
  rw [show Vec2.dot ⟨1, 0.1⟩ ⟨1, 0⟩ = 1 from by rw [Vec2.dot_mk]; norm_num]
  rw [show ((⟨0, 0⟩ : Vec2) + (1 : ℝ) • ⟨1, 0⟩) = ⟨1, 0⟩ from by ext <;> simp]
  rw [show ((⟨1, 0.1⟩ : Vec2) - ⟨1, 0⟩) = ⟨0, 0.1⟩ from by ext <;> norm_num]
  rw [show Vec2.norm ⟨0, 0.1⟩ = 0.1 from by rw [Vec2.norm_0y]; norm_num]
  simp only [Vec2.mk_x2, Vec2.mk_y2]
  rw [if_neg (by norm_num : ¬ (1 : ℝ) * 0 - 0.1 * 1 > 0)]
  rw [show max (((1 : ℝ) + 0.5) * 0.8) 1.0 = 1.2 from by
    rw [max_eq_left (by norm_num)]; norm_num]
  rw [show ((⟨0, 0⟩ : Vec2) + ((1 : ℝ) - 1.2) • ⟨1, 0⟩) = ⟨-0.2, 0⟩ from by
    ext <;> simp <;> norm_num]
  rw [show ((⟨0, 0⟩ : Vec2) + ((1 : ℝ) + 1.2) • ⟨1, 0⟩) = ⟨2.2, 0⟩ from by
    ext <;> simp <;> norm_num]
  rw [show ((⟨-0.2, 0⟩ : Vec2) + ((-1 : ℝ) * ((1 - 0.1) + 0.5)) • ⟨-0, 1⟩) = ⟨-0.2, -1.4⟩ from by
    ext <;> simp <;> norm_num]
  rw [show ((⟨2.2, 0⟩ : Vec2) + ((-1 : ℝ) * ((1 - 0.1) + 0.5)) • ⟨-0, 1⟩) = ⟨2.2, -1.4⟩ from by
    ext <;> simp <;> norm_num]
  rw [show ((⟨-0.2, -1.4⟩ : Vec2) - ⟨1, 0.1⟩) = ⟨-1.2, -1.5⟩ from by ext <;> norm_num]
  rw [show ((⟨2.2, -1.4⟩ : Vec2) - ⟨1, 0.1⟩) = ⟨1.2, -1.5⟩ from by ext <;> norm_num]
  rw [if_neg (show ¬ Vec2.norm ⟨-1.2, -1.5⟩ < 1 + 0.5 from by
    rw [not_lt]
    unfold Vec2.norm
    simp only [Vec2.mk_x2, Vec2.mk_y2]
    exact sqrt_ge_of_sq (by norm_num) (by norm_num))]
  rw [if_neg (show ¬ Vec2.norm ⟨1.2, -1.5⟩ < 1 + 0.5 from by
    rw [not_lt]
    unfold Vec2.norm
    simp only [Vec2.mk_x2, Vec2.mk_y2]
    exact sqrt_ge_of_sq (by norm_num) (by norm_num))]

/-- C6 counterexample. With the segment `(0,0) → (10,0)` and the obstacle at
`(1, 0.1)` (radius 1), the projection `1` lies inside the segment but
`projection - approach_distance = -0.2` falls before its start: the source clamps
the entry base to the segment start `(0,0)`, so the computed entry waypoint
`(0, -1.4)` differs from the claim's unclamped `(-0.2, -1.4)`. -/
theorem C6_counterexample :
    calculate_avoidance_waypoints ⟨0, 0⟩ ⟨10, 0⟩ [⟨1, 0.1, 1, 5⟩] 1 ≠
      spec_detour_waypoints ⟨0, 0⟩ ⟨10, 0⟩ ⟨1, 0.1, 1, 5⟩ 0.5 := by
  rw [c6_code_eval, c6_spec_eval]
  intro h
  have hx := congrArg (fun l => (List.getD l 0 ⟨0, 0⟩).x) h
  simp only [List.getD, List.getElem?_cons_zero, Option.getD_some, Vec2.mk_x2] at hx
  norm_num at hx

/-! ### The obstacle-free progressive scenario and the exhausted-ladder scenario -/

lemma head_mem_of_head? {l : List Vec3} {a : Vec3} (h : l.head? = some a) : a ∈ l :=
  List.mem_of_mem_head? (by rw [h]; exact rfl)

lemma build_prog_eq (ip : Vec2) :
    build_trajectory_with_runway_alignment ac_prog ⟨0, 0, 1⟩ ip ⟨0, 20, 0.5⟩
      ⟨0, 1⟩ ⟨0, 1⟩ [] =
      .ok (some (c3_traj, calculate_parameters c3_traj ac_prog.speed)) := by
  unfold build_trajectory_with_runway_alignment
  simp only []
  split_ifs with hc
  · rfl
  · exact absurd trivial hc

/-- C3 witness scenario: obstacle-free progressive plan from `(0,0,1)` to the FAF
`(0,20,0.5)`. -/
theorem C3_endpoints_witness :
    c3_traj.head? = some ⟨0, 0, 1⟩ ∧ c3_traj.getLast? = some ⟨0, 20, 0.5⟩ :=
  C3_build_endpoints ac_prog ⟨0, 0, 1⟩ ⟨0, 19.5⟩ ⟨0, 20, 0.5⟩ ⟨0, 1⟩ ⟨0, 1⟩ []
    c3_traj (calculate_parameters c3_traj ac_prog.speed) (build_prog_eq ⟨0, 19.5⟩)

/-- When the aircraft's start position itself sits inside an obstacle, the first
candidate and all five ladder rebuilds collide, so the builder falls through to the
emergency path and raises `KeyError`. -/
lemma build_all_collide_err (aircraft : Aircraft) (start_pos : Vec3)
    (ip : Vec2) (faf_pos : Vec3) (current_dir runway_dir : Vec2)
    (cylinders : List Cylinder) (c : Cylinder) (hmem : c ∈ cylinders)
    (hne : cylinders ≠ [])
    (hstart : check_collision_with_cylinder start_pos c) :
    build_trajectory_with_runway_alignment aircraft start_pos ip faf_pos
      current_dir runway_dir cylinders = .error .keyError := by
  unfold build_trajectory_with_runway_alignment
  simp only []
  split_ifs with hc hcol
  · exact absurd hc hne
  · rw [retry_attempts_all_fail]
    · cases hcy : cylinders with
      | nil => exact absurd hcy hne
      | cons c0 cs0 =>
        rw [emergency_error_of_ne_nil]
        rfl
    · intro a
      refine ⟨start_pos, ?_, c, hmem, hstart⟩
      exact head_mem_of_head?
        (set_last_endpoints _ _ _
          (le_trans (by norm_num) (assembled_len _ _ _ _)) (assembled_head _ _ _ _)).1
  · exfalso
    refine hcol ⟨start_pos, ?_, c, hmem, hstart⟩
    exact head_mem_of_head?
      (smoothed_candidate_endpoints _ _ _
        (le_trans (by norm_num) (assembled_len _ _ _ _)) (assembled_head _ _ _ _)).1

lemma env_prog_airport : env_prog.airport_position = ⟨0, 30, 0⟩ := rfl

lemma env_prog_faf : env_prog.faf_position = ⟨0, 20, 0.5⟩ := rfl

lemma ac_prog_position : ac_prog.position = ⟨0, 0, 1⟩ := rfl

lemma ac_prog_heading : ac_prog.heading = 0 := rfl

lemma calc_traj_prog_reduce (cyls : List Cylinder) :
    ∃ ip, calculate_trajectory env_prog ac_prog cyls =
      build_trajectory_with_runway_alignment ac_prog ⟨0, 0, 1⟩ ip ⟨0, 20, 0.5⟩
        ⟨0, 1⟩ ⟨0, 1⟩ cyls := by
  simp only [calculate_trajectory, env_prog_airport, env_prog_faf, ac_prog_position,
    ac_prog_heading, Vec3.xy_mk]
  rw [show ((⟨0, 30⟩ : Vec2) - ⟨0, 20⟩) = ⟨0, 10⟩ from by ext <;> norm_num]
  rw [show Vec2.norm ⟨0, 10⟩ = 10 from by rw [Vec2.norm_0y]; norm_num]
  rw [if_neg (by norm_num : ¬ (10 : ℝ) < 0.1)]
  rw [show ((1 / (10 : ℝ)) • (⟨0, 10⟩ : Vec2)) = ⟨0, 1⟩ from by ext <;> simp <;> norm_num]
  rw [show ((⟨Real.sin (radians 0), Real.cos (radians 0)⟩ : Vec2)) = ⟨0, 1⟩ from by
    rw [radians_zero, Real.sin_zero, Real.cos_zero]]
  rw [show ((⟨0, 20⟩ : Vec2) - ⟨0, 0⟩) = ⟨0, 20⟩ from by ext <;> norm_num]
  rw [show Vec2.norm ⟨0, 20⟩ = 20 from by rw [Vec2.norm_0y]; norm_num]
  rw [if_neg (by norm_num : ¬ (20 : ℝ) < 0.1)]
  exact ⟨_, rfl⟩

/-- C2 counterexample. A giant obstacle covering the start position makes the first
build and all five rebuilds (margins 2.0 … 4.0) collide; instead of the claimed
clean no-trajectory return, the engine raises `KeyError` from the emergency
avoidance path. -/
theorem C2_counterexample :
    calculate_trajectory env_prog ac_prog [cyl_big] = .error .keyError := by
  obtain ⟨ip, h⟩ := calc_traj_prog_reduce [cyl_big]
  rw [h]
  refine build_all_collide_err _ _ _ _ _ _ [cyl_big] cyl_big
    (List.mem_singleton_self _) (by simp) ?_
  unfold check_collision_with_cylinder cyl_big
  refine ⟨?_, by norm_num, by norm_num⟩
  rw [show ((⟨0, 0, 1⟩ : Vec3).x - 0) ^ 2 + ((⟨0, 0, 1⟩ : Vec3).y - 0) ^ 2 = 0 from by
    simp]
  rw [Real.sqrt_zero]
  norm_num

/-! ### C8: duplicate samples at the segment joint of the progressive trajectory -/

lemma ac_prog_descent : ac_prog.max_descent_slope = -6 := rfl

lemma ac_prog_speed : ac_prog.speed = 250 := rfl

lemma bezier_point_zero (P0 P1 P2 P3 : Vec2) : bezier_point P0 P1 P2 P3 0 = P0 := by
  unfold bezier_point
  ext <;> simp <;> ring

lemma c3_traj_eq :
    c3_traj = set_last_to (smooth_final (initial_segment_list ⟨0, 0, 1⟩ ⟨0, 1⟩ 4 ++
      bezier_chain [⟨0, 4⟩, ⟨0, 20⟩] ⟨0, 1⟩ ⟨0, 1⟩ 1 0.5
        (20 - (1 / 2 / Real.tan (6 * π / 180) + 3.0)) 3.0 (Real.tan (6 * π / 180)))
      ⟨0, 20, 0.5⟩) ⟨0, 20, 0.5⟩ := by
  obtain ⟨hTpos, hT⟩ := tan_six_bounds
  unfold c3_traj
  simp only [Vec3.xy_mk, Vec3.mk_z, ac_prog_descent]
  rw [show ((⟨0, 20⟩ : Vec2) - ⟨0, 0⟩) = ⟨0, 20⟩ from by ext <;> norm_num]
  rw [Vec2.norm_0y, show |(20 : ℝ)| = 20 from by norm_num]
  rw [show np_clip (20 * 0.20) 1.0 5.0 = 4 from by
    unfold np_clip
    rw [max_eq_left (by norm_num), min_eq_left (by norm_num)]
    norm_num]
  rw [show radians (-6 : ℝ) = -(6 * π / 180) from by unfold radians; ring]
  rw [show |(-(6 * π / 180) : ℝ)| = 6 * π / 180 from by
    rw [abs_neg]
    exact abs_of_nonneg (by positivity)]
  rw [Real.tan_neg, abs_neg, abs_of_pos hTpos]
  rw [show (0.5 - 1 : ℝ) = -(1 / 2) from by norm_num]
  rw [neg_div, abs_neg, abs_of_pos (div_pos (by norm_num) hTpos)]
  generalize hTg : Real.tan (6 * π / 180) = T
  rw [hTg] at hTpos hT
  have hM5 : 1 / 2 / T < 5 := by
    rw [div_lt_iff hTpos]
    nlinarith
  have hMpos : 0 < 1 / 2 / T := div_pos (by norm_num) hTpos
  rw [min_eq_left (show 1 / 2 / T * 0.50 ≤ 12.0 by nlinarith)]
  rw [max_eq_right (show 1 / 2 / T * 0.50 ≤ 3.0 by nlinarith)]
  rw [show descent_phase_lengths (1 / 2 / T) 3.0 20 = (20 - (1 / 2 / T + 3.0), 3.0) from by
    unfold descent_phase_lengths
    rw [if_neg (by push_neg; nlinarith)]]
  rw [show ((⟨0, 0⟩ : Vec2) + (4 : ℝ) • ⟨0, 1⟩) = ⟨0, 4⟩ from by ext <;> simp]
  rfl

lemma prog_init_len : (initial_segment_list ⟨0, 0, 1⟩ ⟨0, 1⟩ 4).length = 400 := by
  unfold initial_segment_list
  rw [py_int_toNat_eq (4 * 100) 400 (by norm_num)]
  rw [List.length_map, List.length_range]
  omega

lemma prog_init_399 :
    (initial_segment_list ⟨0, 0, 1⟩ ⟨0, 1⟩ 4).getD 399 ⟨0, 0, 0⟩ = ⟨0, 4, 1⟩ := by
  unfold initial_segment_list
  rw [py_int_toNat_eq (4 * 100) 400 (by norm_num)]
  rw [show ((50 : ℕ) ⊔ 400) = 400 from rfl]
  rw [List.getD_range_map _ (show (399 : ℕ) < 400 by norm_num)]
  simp only [Vec3.xy_mk, Vec3.mk_z]
  rw [show ((399 : ℕ) : ℝ) / (((400 : ℕ) : ℝ) - 1) * 4 = 4 from by push_cast; norm_num]
  ext <;> simp

lemma prog_chain_len (L tr dr : ℝ) :
    (bezier_chain [⟨0, 4⟩, ⟨0, 20⟩] ⟨0, 1⟩ ⟨0, 1⟩ 1 0.5 L tr dr).length = 2400 := by
  unfold bezier_chain
  rw [show ([(⟨0, 4⟩ : Vec2), ⟨0, 20⟩].length - 1) = 1 from rfl]
  rw [show List.range 1 = [0] from rfl]
  simp only [List.flatMap_cons, List.flatMap_nil, List.append_nil, List.getD_cons_zero,
    List.getD_cons_succ]
  rw [show ((⟨0, 20⟩ : Vec2) - ⟨0, 4⟩) = ⟨0, 16⟩ from by ext <;> norm_num]
  rw [Vec2.norm_0y, show |(16 : ℝ)| = 16 from by norm_num]
  rw [py_int_toNat_eq (16 * 150) 2400 (by norm_num)]
  rw [List.length_map, List.length_range]
  omega

lemma prog_chain_0 (L tr dr : ℝ) (hL : 0 < L) :
    (bezier_chain [⟨0, 4⟩, ⟨0, 20⟩] ⟨0, 1⟩ ⟨0, 1⟩ 1 0.5 L tr dr).getD 0 ⟨0, 0, 0⟩ =
      ⟨0, 4, 1⟩ := by
  unfold bezier_chain
  rw [show ([(⟨0, 4⟩ : Vec2), ⟨0, 20⟩].length - 1) = 1 from rfl]
  rw [show List.range 1 = [0] from rfl]
  simp only [List.flatMap_cons, List.flatMap_nil, List.append_nil, List.getD_cons_zero,
    List.getD_cons_succ, List.range_zero, List.map_nil, List.sum_nil]
  rw [show ((⟨0, 20⟩ : Vec2) - ⟨0, 4⟩) = ⟨0, 16⟩ from by ext <;> norm_num]
  rw [Vec2.norm_0y, show |(16 : ℝ)| = 16 from by norm_num]
  rw [py_int_toNat_eq (16 * 150) 2400 (by norm_num)]
  rw [show ((100 : ℕ) ⊔ 2400) = 2400 from rfl]
  simp only [show ((0 : ℕ) = 0) = True from by simp, if_true]
  rw [List.getD_range_map _ (show (0 : ℕ) < 2400 by norm_num)]
  rw [show ((0 : ℕ) : ℝ) / (((2400 : ℕ) : ℝ) - 1) = 0 from by norm_num]
  rw [bezier_point_zero]
  rw [show (0 : ℝ) + 0 * 16 = 0 from by norm_num]
  rw [show build_altitude 1 0.5 L tr dr 0 = 1 from by
    unfold build_altitude
    rw [if_pos hL]]
  rw [Vec2.withZ_mk]

lemma c3_traj_len : c3_traj.length = 2800 := by
  rw [c3_traj_eq, set_last_to_length, smooth_final_length, List.length_append,
    prog_init_len, prog_chain_len]

lemma c3_getD_399 : c3_traj.getD 399 ⟨0, 0, 0⟩ = ⟨0, 4, 1⟩ := by
  rw [c3_traj_eq]
  have hlen : (initial_segment_list ⟨0, 0, 1⟩ ⟨0, 1⟩ 4 ++
      bezier_chain [⟨0, 4⟩, ⟨0, 20⟩] ⟨0, 1⟩ ⟨0, 1⟩ 1 0.5
        (20 - (1 / 2 / Real.tan (6 * π / 180) + 3.0)) 3.0
        (Real.tan (6 * π / 180))).length = 2800 := by
    rw [List.length_append, prog_init_len, prog_chain_len]
  rw [set_last_getD_low _ _ (by rw [smooth_final_length, hlen]; norm_num)]
  rw [smooth_final_getD_low _ _ (by rw [hlen]; norm_num)]
  rw [getD_append_lt _ _ (by rw [prog_init_len]; norm_num)]
  exact prog_init_399

lemma c3_getD_400 : c3_traj.getD 400 ⟨0, 0, 0⟩ = ⟨0, 4, 1⟩ := by
  obtain ⟨hTpos, hT⟩ := tan_six_bounds
  rw [c3_traj_eq]
  have hlen : (initial_segment_list ⟨0, 0, 1⟩ ⟨0, 1⟩ 4 ++
      bezier_chain [⟨0, 4⟩, ⟨0, 20⟩] ⟨0, 1⟩ ⟨0, 1⟩ 1 0.5
        (20 - (1 / 2 / Real.tan (6 * π / 180) + 3.0)) 3.0
        (Real.tan (6 * π / 180))).length = 2800 := by
    rw [List.length_append, prog_init_len, prog_chain_len]
  rw [set_last_getD_low _ _ (by rw [smooth_final_length, hlen]; norm_num)]
  rw [smooth_final_getD_low _ _ (by rw [hlen]; norm_num)]
  rw [getD_append_ge _ _ (by rw [prog_init_len])]
  rw [prog_init_len]
  rw [show ((400 : ℕ) - 400) = 0 from rfl]
  refine prog_chain_0 _ _ _ ?_
  have hM5 : 1 / 2 / Real.tan (6 * π / 180) < 5 := by
    rw [div_lt_iff hTpos]
    nlinarith
  linarith

lemma calc_traj_prog_eq :
    calculate_trajectory env_prog ac_prog [] =
      .ok (some (c3_traj, calculate_parameters c3_traj ac_prog.speed)) := by
  obtain ⟨ip, h⟩ := calc_traj_prog_reduce []
  rw [h, build_prog_eq]

/-- C8 counterexample. In the obstacle-free progressive scenario the last sample of
the initial level segment (index 399) and the first Bezier sample (index 400) are
both `(0, 4, 1)`: consecutive samples coincide at the segment joint, so the
cumulative arc length is not strictly increasing there. -/
theorem C8_counterexample :
    ¬ result_satisfies strictly_increasing_samples
      (calculate_trajectory env_prog ac_prog []) := by
  rw [calc_traj_prog_eq]
  show ¬ strictly_increasing_samples c3_traj
  intro hmono
  have h399 := hmono 399 (by rw [c3_traj_len]; norm_num)
  rw [show (399 + 1 : ℕ) = 400 from rfl] at h399
  rw [c3_getD_400, c3_getD_399] at h399
  rw [show ((⟨0, 4, 1⟩ : Vec3) - ⟨0, 4, 1⟩) = ⟨0, 0, 0⟩ from by ext <;> norm_num] at h399
  rw [Vec3.norm_00z, abs_zero] at h399
  exact lt_irrefl 0 h399

/-! ### C5: the vertical-descent scenario refutes the claimed time law -/

lemma env_vert_airport : env_vert.airport_position = ⟨5, 8, 0⟩ := rfl

lemma env_vert_faf : env_vert.faf_position = ⟨5, 5, 0.5⟩ := rfl

lemma ac_vert_position : ac_vert.position = ⟨5, 5, 2⟩ := rfl

lemma vert_pair :
    vertical_trajectory ac_vert ⟨5, 5, 2⟩ ⟨5, 5, 0.5⟩ =
      (vertV, calculate_parameters vertV 10) := by
  unfold vertical_trajectory vertV
  simp only [Vec3.mk_z]
  rw [show (0.5 - 2 : ℝ) = -(3 / 2) from by norm_num]
  rw [abs_neg, abs_of_pos (by norm_num : (0 : ℝ) < 3 / 2)]
  rw [py_int_toNat_eq (3 / 2 * 200) 300 (by norm_num)]
  rw [show ((300 : ℕ) ⊔ 300) = 300 from rfl]
  rw [show (10.0 : ℝ) = 10 from by norm_num]

lemma vert_eq :
    calculate_trajectory env_vert ac_vert [] =
      .ok (some (vertV, calculate_parameters vertV 10)) := by
  unfold calculate_trajectory
  simp only [env_vert_airport, env_vert_faf, ac_vert_position, Vec3.xy_mk]
  rw [show ((⟨5, 8⟩ : Vec2) - ⟨5, 5⟩) = ⟨0, 3⟩ from by ext <;> norm_num]
  rw [Vec2.norm_0y, show |(3 : ℝ)| = 3 from by norm_num]
  rw [if_neg (by norm_num : ¬ (3 : ℝ) < 0.1)]
  rw [show ((⟨5, 5⟩ : Vec2) - ⟨5, 5⟩) = ⟨0, 0⟩ from by ext <;> norm_num]
  rw [show Vec2.norm ⟨0, 0⟩ = 0 from by rw [Vec2.norm_0y]; norm_num]
  rw [if_pos (by norm_num : (0 : ℝ) < 0.1)]
  rw [vert_pair]

lemma vertV_len : vertV.length = 300 := by
  unfold vertV
  rw [List.length_map, List.length_range]

lemma vertV_getD (k : ℕ) (hk : k < 300) :
    vertV.getD k ⟨0, 0, 0⟩ =
      ⟨5, 5, 2 - 3 / 2 * (((k : ℝ) / 299) * ((k : ℝ) / 299) * (3 - 2 * ((k : ℝ) / 299)))⟩ := by
  unfold vertV
  rw [List.getD_range_map _ hk]
  rw [show (((300 : ℕ) : ℝ) - 1) = 299 from by push_cast; norm_num]
  ext <;> simp <;> ring

lemma vert_smooth_mono (k : ℕ) (hk : k + 1 ≤ 299) :
    ((k : ℝ) / 299) * ((k : ℝ) / 299) * (3 - 2 * ((k : ℝ) / 299)) ≤
      (((k : ℝ) + 1) / 299) * (((k : ℝ) + 1) / 299) * (3 - 2 * (((k : ℝ) + 1) / 299)) := by
  have ha0 : (0 : ℝ) ≤ (k : ℝ) / 299 := by positivity
  have hb0 : (0 : ℝ) ≤ ((k : ℝ) + 1) / 299 := by positivity
  have hab : (k : ℝ) / 299 ≤ ((k : ℝ) + 1) / 299 := by
    apply div_le_div_of_nonneg_right ?_ (by norm_num)
    linarith
  have hb1 : ((k : ℝ) + 1) / 299 ≤ 1 := by
    rw [div_le_one (by norm_num)]
    have : ((k : ℝ) + 1) ≤ 299 := by exact_mod_cast hk
    linarith
  have ha1 : (k : ℝ) / 299 ≤ 1 := le_trans hab hb1
  nlinarith [mul_nonneg (sub_nonneg.2 hab) (mul_nonneg ha0 (sub_nonneg.2 hb1)),
    mul_nonneg (sub_nonneg.2 hab) (mul_nonneg hb0 (sub_nonneg.2 ha1)),
    mul_nonneg (sub_nonneg.2 hab) (mul_nonneg ha0 (sub_nonneg.2 ha1)),
    mul_nonneg (sub_nonneg.2 hab) (mul_nonneg hb0 (sub_nonneg.2 hb1))]

lemma vert_rd (k : ℕ) (hk : k ≤ 299) :
    running_distance vertV k =
      3 / 2 * (((k : ℝ) / 299) * ((k : ℝ) / 299) * (3 - 2 * ((k : ℝ) / 299))) := by
  induction k with
  | zero =>
    rw [running_distance]
    norm_num
  | succ k ih =>
    have hk' : k ≤ 299 := by omega
    rw [running_distance, ih hk']
    rw [vertV_getD (k + 1) (by omega), vertV_getD k (by omega)]
    push_cast
    rw [Vec3.mk_sub3]
    rw [show (5 - 5 : ℝ) = 0 from by norm_num]
    rw [Vec3.norm_00z]
    have hmono := vert_smooth_mono k hk
    rw [show (2 - 3 / 2 * ((((k : ℝ) + 1) / 299) * (((k : ℝ) + 1) / 299) *
          (3 - 2 * (((k : ℝ) + 1) / 299)))) -
        (2 - 3 / 2 * (((k : ℝ) / 299) * ((k : ℝ) / 299) * (3 - 2 * ((k : ℝ) / 299)))) =
        -(3 / 2 * ((((k : ℝ) + 1) / 299) * (((k : ℝ) + 1) / 299) *
            (3 - 2 * (((k : ℝ) + 1) / 299)) -
          ((k : ℝ) / 299) * ((k : ℝ) / 299) * (3 - 2 * ((k : ℝ) / 299)))) from by ring]
    rw [abs_neg, abs_of_nonneg (by nlinarith)]
    ring

lemma vert_total : running_distance vertV 299 = 3 / 2 := by
  rw [vert_rd 299 le_rfl]
  norm_num

lemma vert_time_getD (j : ℕ) (hj : j < 300) :
    (calculate_parameters vertV 10).time.getD j 0 =
      (j : ℝ) * ((3 / 2 / 10) * 3600) / 299 := by
  unfold calculate_parameters
  simp only [vertV_len]
  rw [List.getD_range_map _ hj]
  unfold linspace_time
  simp only [vertV_len]
  rw [show ((300 : ℕ) - 1) = 299 from rfl]
  rw [vert_total]
  rw [if_pos (by norm_num : (3 / 2 : ℝ) > 0)]
  rw [show (((300 : ℕ) : ℝ) - 1) = 299 from by push_cast; norm_num]

lemma vert_speed_getD (j : ℕ) (hj : j < 300) :
    (calculate_parameters vertV 10).speed.getD j 0 = 10 := by
  unfold calculate_parameters
  simp only [vertV_len]
  rw [List.getD_eq_getElem?_getD, List.getElem?_replicate, if_pos hj]
  rfl

/-- C5 counterexample. In the vertical-descent fallback the speed series is the
constant 10 km/h, the first spatial step is the tiny smoothstep increment
`1.5·s(1/299)` km, yet the `linspace` time series advances by the uniform
`(1.5/10)·3600/299` s: `time[1] − time[0]` is not `Δdistance / average speed`. -/
theorem C5_counterexample :
    ¬ result_satisfies_pair time_matches_distance_over_speed
      (calculate_trajectory env_vert ac_vert []) := by
  rw [vert_eq]
  show ¬ time_matches_distance_over_speed vertV (calculate_parameters vertV 10)
  intro h
  have h0 := h 0 (by rw [vertV_len]; norm_num)
  have hz1 : vertV.getD 1 ⟨0, 0, 0⟩ = ⟨5, 5, 2 - 2685 / 53461798⟩ := by
    rw [vertV_getD 1 (by norm_num)]
    ext <;> push_cast <;> norm_num
  have hz0 : vertV.getD 0 ⟨0, 0, 0⟩ = ⟨5, 5, 2⟩ := by
    rw [vertV_getD 0 (by norm_num)]
    ext <;> push_cast <;> norm_num
  rw [vert_time_getD 1 (by norm_num), vert_time_getD 0 (by norm_num),
    vert_speed_getD 1 (by norm_num), vert_speed_getD 0 (by norm_num),
    hz1, hz0] at h0
  rw [Vec3.mk_sub3] at h0
  rw [show (5 - 5 : ℝ) = 0 from by norm_num] at h0
  rw [Vec3.norm_00z] at h0
  rw [show ((2 : ℝ) - 2685 / 53461798) - 2 = -(2685 / 53461798) from by norm_num] at h0
  rw [abs_neg, abs_of_nonneg (by norm_num : (0 : ℝ) ≤ 2685 / 53461798)] at h0
  norm_num at h0

end
